import Mathlib

/-!
# Observe-mode command handlers of the NXP NFC HAL

A shallow embedding of `snxxx/halimpl/observe_mode/ObserveMode.cc` and
theorems about its three vendor-command handlers.

Modelling conventions.

* The global `bIsObserveModeEnabled` and everything the handlers do to the
  outside world (commands handed to `phNxpNciHal_send_ext_cmd`, calls of the
  discovery command builder, responses handed to
  `phNxpNciHal_vendorSpecificCallback`) live in `HalState`; the outside
  world is an append-only log of `Event`s in program order.
* `p_data` is the memory the pointer argument points to, as a list of
  cells; a `uint8_t` read of a cell is its value modulo 256, and a read
  past the end of the list has no defined result, so every handler returns
  an `Option`.
* The macros of the headers that are not part of the sources are the
  fields of `NciConstants`; the answers of the external functions are the
  fields of `Externals`.
-/

namespace ObserveMode

/-- The macros used by `ObserveMode.cc` whose defining headers
(`phNfcNciConstants.h`, `ObserveMode.h`, `phNfcStatus.h`) are not among the
sources. Their values are parameters of the development. -/
structure NciConstants where
  NCI_RSP_OK : Nat
  NCI_RSP_FAIL : Nat
  NCI_OID_INDEX : Nat
  NCI_MSG_LEN_INDEX : Nat
  NCI_MSG_INDEX_FOR_FEATURE : Nat
  NCI_MSG_INDEX_FEATURE_VALUE : Nat
  OBSERVE_MODE_TECH_COMMAND_SUPPORT_FLAG : Nat
  OBSERVE_MODE_TECH_COMMAND_SUPPORT_FLAG_FOR_ALL_TECH : Nat
  NCI_ANDROID_PASSIVE_OBSERVE_PARAM_DISABLE : Nat
  NFCSTATUS_SUCCESS : Nat
deriving DecidableEq, Repr

/-- What the external collaborators answer during one handler invocation.
The three status fields carry the names of the local variables that
receive the results of the (at most three) `phNxpNciHal_send_ext_cmd`
calls of `handleObserveModeTechCommand`. -/
structure Externals where
  /-- Result of `phNxpNciHal_isObserveModeSupported()`. -/
  isObserveModeSupported : Bool
  /-- Status returned for the RF deactivate command. -/
  rfDeactivateStatus : Nat
  /-- Status returned for the forwarded observe-mode tech command. -/
  nciStatus : Nat
  /-- Status returned for the discovery command. -/
  rfDiscoveryStatus : Nat
  /-- Bytes produced by `NciDiscoveryCommandBuilderInstance.reConfigRFDiscCmd()`. -/
  reConfigRFDiscCmd : List Nat
  /-- Bytes produced by `NciDiscoveryCommandBuilderInstance.getDiscoveryCommand()`. -/
  getDiscoveryCommand : List Nat
deriving DecidableEq, Repr

/-- One interaction of a handler with an external collaborator. -/
inductive Event where
  /-- Call `phNxpNciHal_send_ext_cmd(cmd_len, p_cmd)`, which returned `status`. -/
  | send_ext_cmd (cmd_len : Nat) (p_cmd : List Nat) (status : Nat)
  /-- Call of the builder's `reConfigRFDiscCmd()`. -/
  | reConfigRFDiscCmd
  /-- Call of the builder's `getDiscoveryCommand()`. -/
  | getDiscoveryCommand
  /-- Call `phNxpNciHal_vendorSpecificCallback(oid, opcode, data)`. -/
  | vendorSpecificCallback (oid : Nat) (opcode : Nat) (data : List Nat)
deriving DecidableEq, Repr

/-- The global flag together with the log of external interactions. -/
structure HalState where
  bIsObserveModeEnabled : Bool
  log : List Event
deriving DecidableEq, Repr

/-- State at process start: the global `bool` is zero-initialised. -/
def initialState : HalState := ⟨false, []⟩

/-- Source: `void setObserveModeFlag(bool flag)`. -/
def setObserveModeFlag (flag : Bool) (s : HalState) : HalState :=
  { s with bIsObserveModeEnabled := flag }

/-- Source: `bool isObserveModeEnabled()`. -/
def isObserveModeEnabled (s : HalState) : Bool := s.bIsObserveModeEnabled

/-- Append one event to the log. -/
def record (e : Event) (s : HalState) : HalState :=
  { s with log := s.log ++ [e] }

/-- A `uint8_t` read `p_data[i]`; `none` when `i` is past the buffer. -/
def readByte (p_data : List Nat) (i : Nat) : Option Nat :=
  (p_data.get? i).map (fun b => b % 256)

/-- The literal `rf_deactivate_cmd` of `handleObserveModeTechCommand`. -/
def rf_deactivate_cmd : List Nat := [0x21, 0x06, 0x01, 0x00]

/-- The condition `p_data[v] == FLAG || p_data[v] == FLAG_FOR_ALL_TECH ||
p_data[v] == PARAM_DISABLE` on the feature-value byte `v`. -/
def isRecognizedToken (c : NciConstants) (v : Nat) : Bool :=
  v == c.OBSERVE_MODE_TECH_COMMAND_SUPPORT_FLAG ||
  v == c.OBSERVE_MODE_TECH_COMMAND_SUPPORT_FLAG_FOR_ALL_TECH ||
  v == c.NCI_ANDROID_PASSIVE_OBSERVE_PARAM_DISABLE

/-- The local `bool flag` of `handleObserveModeTechCommand`, computed from
the feature-value byte `v`. -/
def techToggleIntent (c : NciConstants) (v : Nat) : Bool :=
  v == c.OBSERVE_MODE_TECH_COMMAND_SUPPORT_FLAG ||
  v == c.OBSERVE_MODE_TECH_COMMAND_SUPPORT_FLAG_FOR_ALL_TECH

/-- Source: `int handleObserveMode(uint16_t data_len, const uint8_t* p_data)`. -/
def handleObserveMode (c : NciConstants) (x : Externals) (data_len : Nat)
    (p_data : List Nat) (s : HalState) : Option (Int × HalState) :=
  if data_len ≤ 4 then
    some (0, s)
  else do
    let (status, s1) ←
      if x.isObserveModeSupported then do
        let v ← readByte p_data c.NCI_MSG_INDEX_FEATURE_VALUE
        pure (c.NCI_RSP_OK % 256, setObserveModeFlag (v != 0) s)
      else
        pure (c.NCI_RSP_FAIL % 256, s)
    let oid ← readByte p_data c.NCI_OID_INDEX
    let opcode ← readByte p_data c.NCI_MSG_INDEX_FOR_FEATURE
    let s2 := record (Event.vendorSpecificCallback oid opcode [status]) s1
    let len ← readByte p_data c.NCI_MSG_LEN_INDEX
    pure ((len : Int), s2)

/-- The body of the outer `if` of `handleObserveModeTechCommand`, entered
with a recognised feature-value byte `v`: the deactivate / tech command /
discovery sequence. Returns the status byte and the new state. -/
def techCommandSequence (c : NciConstants) (x : Externals) (data_len : Nat)
    (p_data : List Nat) (v : Nat) (s : HalState) : Nat × HalState :=
  let flag := techToggleIntent c v
  let s1 := record (Event.send_ext_cmd rf_deactivate_cmd.length rf_deactivate_cmd
                      x.rfDeactivateStatus) s
  if x.rfDeactivateStatus = c.NFCSTATUS_SUCCESS then
    let s2 := if flag then record (Event.send_ext_cmd data_len p_data x.nciStatus) s1 else s1
    let discoveryCommand := if flag then x.reConfigRFDiscCmd else x.getDiscoveryCommand
    let s3 := record (if flag then Event.reConfigRFDiscCmd else Event.getDiscoveryCommand) s2
    let s4 := record (Event.send_ext_cmd discoveryCommand.length discoveryCommand
                        x.rfDiscoveryStatus) s3
    if x.rfDiscoveryStatus = c.NFCSTATUS_SUCCESS then
      (c.NCI_RSP_OK % 256, setObserveModeFlag flag s4)
    else
      (c.NCI_RSP_FAIL % 256, s4)
  else
    (c.NCI_RSP_FAIL % 256, s1)

/-- Source: `int handleObserveModeTechCommand(uint16_t data_len, const uint8_t* p_data)`.
The feature-value byte is read only when observe mode is supported (the
`&&` of the condition short-circuits). -/
def handleObserveModeTechCommand (c : NciConstants) (x : Externals) (data_len : Nat)
    (p_data : List Nat) (s : HalState) : Option (Int × HalState) := do
  let (status, s1) ←
    if x.isObserveModeSupported then do
      let v ← readByte p_data c.NCI_MSG_INDEX_FEATURE_VALUE
      if isRecognizedToken c v then
        pure (techCommandSequence c x data_len p_data v s)
      else
        pure (c.NCI_RSP_FAIL % 256, s)
    else
      pure (c.NCI_RSP_FAIL % 256, s)
  let oid ← readByte p_data c.NCI_OID_INDEX
  let opcode ← readByte p_data c.NCI_MSG_INDEX_FOR_FEATURE
  let s2 := record (Event.vendorSpecificCallback oid opcode [status]) s1
  let len ← readByte p_data c.NCI_MSG_LEN_INDEX
  pure ((len : Int), s2)

/-- Source: `int handleGetObserveModeStatus(uint16_t data_len, const uint8_t* p_data)`. -/
def handleGetObserveModeStatus (c : NciConstants) (data_len : Nat)
    (p_data : List Nat) (s : HalState) : Option (Int × HalState) :=
  if data_len < 4 then
    some (0, s)
  else do
    let response : List Nat := []
    let response := response ++ [c.NCI_RSP_OK % 256]
    let response := response ++ [if isObserveModeEnabled s then 0x01 else 0x00]
    let oid ← readByte p_data c.NCI_OID_INDEX
    let opcode ← readByte p_data c.NCI_MSG_INDEX_FOR_FEATURE
    let s1 := record (Event.vendorSpecificCallback oid opcode response) s
    let len ← readByte p_data c.NCI_MSG_LEN_INDEX
    pure ((len : Int), s1)

/-- The commands handed to `phNxpNciHal_send_ext_cmd` in a log: the first
`cmd_len` bytes of each buffer, in order. -/
def sentCommands : List Event → List (List Nat)
  | [] => []
  | Event.send_ext_cmd cmd_len p_cmd _ :: es => p_cmd.take cmd_len :: sentCommands es
  | _ :: es => sentCommands es

/-- The responses handed to `phNxpNciHal_vendorSpecificCallback` in a log,
in order, as (oid, opcode, payload). -/
def responses : List Event → List (Nat × Nat × List Nat)
  | [] => []
  | Event.vendorSpecificCallback oid opcode data :: es => (oid, opcode, data) :: responses es
  | _ :: es => responses es

/-- The calls of the discovery command builder in a log. -/
def builderCalls : List Event → List Event
  | [] => []
  | Event.reConfigRFDiscCmd :: es => Event.reConfigRFDiscCmd :: builderCalls es
  | Event.getDiscoveryCommand :: es => Event.getDiscoveryCommand :: builderCalls es
  | _ :: es => builderCalls es

/-- The events `techCommandSequence` appends to the log once the RF deactivate
command succeeded, in program order. -/
def sequenceEvents (c : NciConstants) (x : Externals) (data_len : Nat)
    (p_data : List Nat) (v : Nat) : List Event :=
  if techToggleIntent c v then
    [Event.send_ext_cmd 4 rf_deactivate_cmd x.rfDeactivateStatus,
     Event.send_ext_cmd data_len p_data x.nciStatus,
     Event.reConfigRFDiscCmd,
     Event.send_ext_cmd x.reConfigRFDiscCmd.length x.reConfigRFDiscCmd x.rfDiscoveryStatus]
  else
    [Event.send_ext_cmd 4 rf_deactivate_cmd x.rfDeactivateStatus,
     Event.getDiscoveryCommand,
     Event.send_ext_cmd x.getDiscoveryCommand.length x.getDiscoveryCommand x.rfDiscoveryStatus]

/-- What can be seen of a handler run apart from the statuses the sends
returned: the return value, the final flag, the responses emitted, the
commands sent and the builder calls, each in order. -/
def observation (res : Option (Int × HalState)) :
    Option (Int × Bool × List (Nat × Nat × List Nat) × List (List Nat) × List Event) :=
  res.map fun rs =>
    (rs.1, rs.2.bIsObserveModeEnabled, responses rs.2.log, sentCommands rs.2.log,
      builderCalls rs.2.log)

/-- The return value and the whole log of a handler run, leaving out the
final flag. -/
def returnAndLog (res : Option (Int × HalState)) : Option (Int × List Event) :=
  res.map fun rs => (rs.1, rs.2.log)

/-- One concrete assignment of the header macros, used to run the handlers
on sample buffers. -/
def sampleConstants : NciConstants where
  NCI_RSP_OK := 0x00
  NCI_RSP_FAIL := 0x03
  NCI_OID_INDEX := 1
  NCI_MSG_LEN_INDEX := 2
  NCI_MSG_INDEX_FOR_FEATURE := 3
  NCI_MSG_INDEX_FEATURE_VALUE := 4
  OBSERVE_MODE_TECH_COMMAND_SUPPORT_FLAG := 0x20
  OBSERVE_MODE_TECH_COMMAND_SUPPORT_FLAG_FOR_ALL_TECH := 0x07
  NCI_ANDROID_PASSIVE_OBSERVE_PARAM_DISABLE := 0x00
  NFCSTATUS_SUCCESS := 0

/-- The three vendor-command handlers of `ObserveMode.cc`. -/
inductive Handler where
  | observeMode
  | observeModeTechCommand
  | getObserveModeStatus
deriving DecidableEq, Repr

/-- Run one of the three handlers on a command buffer. -/
def runHandler (h : Handler) (c : NciConstants) (x : Externals) (data_len : Nat)
    (p_data : List Nat) (s : HalState) : Option (Int × HalState) :=
  match h with
  | Handler.observeMode => handleObserveMode c x data_len p_data s
  | Handler.observeModeTechCommand => handleObserveModeTechCommand c x data_len p_data s
  | Handler.getObserveModeStatus => handleGetObserveModeStatus c data_len p_data s

/-- Scenario A: observe mode supported, deactivate succeeds, the tech
command fails, discovery succeeds. -/
def scenarioA : Externals where
  isObserveModeSupported := true
  rfDeactivateStatus := 0
  nciStatus := 0xFF
  rfDiscoveryStatus := 0
  reConfigRFDiscCmd := [0x21, 0x03, 0x03, 0x01, 0x80, 0x01]
  getDiscoveryCommand := [0x21, 0x03, 0x05, 0x02, 0x00, 0x01, 0x80, 0x01]

/-- Scenario B: observe mode supported, deactivate succeeds, discovery fails. -/
def scenarioB : Externals :=
  { scenarioA with rfDiscoveryStatus := 0xFF }

/-- Scenario C: observe mode not supported. -/
def scenarioC : Externals :=
  { scenarioA with isObserveModeSupported := false }

/-- Observe mode supported, the RF deactivate command fails. -/
def scenarioDeactivateFails : Externals :=
  { scenarioA with rfDeactivateStatus := 0xFF }

/-- An inbound tech-scoped enable-for-all-tech command under `sampleConstants`. -/
def enableAllTechBuffer : List Nat := [0x2F, 0x0C, 0x02, 0x05, 0x07]

/-- An inbound tech-scoped explicit-disable command under `sampleConstants`. -/
def disableTechBuffer : List Nat := [0x2F, 0x0C, 0x02, 0x05, 0x00]

/-- An inbound tech-scoped command with an unknown feature value. -/
def unknownTokenBuffer : List Nat := [0x2F, 0x0C, 0x02, 0x05, 0x55]

/-- An inbound simple-toggle enable command under `sampleConstants`. -/
def enableBuffer : List Nat := [0x2F, 0x0C, 0x02, 0x02, 0x01]

/-- An inbound status query, `2F 0C 01 04`. -/
def statusQueryBuffer : List Nat := [0x2F, 0x0C, 0x01, 0x04]

/-- A state in which observe mode is on. -/
def enabledState : HalState := ⟨true, []⟩

end ObserveMode

namespace ObserveMode

/-! ## Facts about logs -/

@[simp] theorem responses_append (l1 l2 : List Event) :
    responses (l1 ++ l2) = responses l1 ++ responses l2 := by
  induction l1 with
  | nil => rfl
  | cons e es ih => cases e <;> simp [responses, ih]

@[simp] theorem sentCommands_append (l1 l2 : List Event) :
    sentCommands (l1 ++ l2) = sentCommands l1 ++ sentCommands l2 := by
  induction l1 with
  | nil => rfl
  | cons e es ih => cases e <;> simp [sentCommands, ih]

@[simp] theorem builderCalls_append (l1 l2 : List Event) :
    builderCalls (l1 ++ l2) = builderCalls l1 ++ builderCalls l2 := by
  induction l1 with
  | nil => rfl
  | cons e es ih => cases e <;> simp [builderCalls, ih]

/-- Result of `handleObserveModeTechCommand` when validation passes. -/
theorem techCommand_eq_of_recognized (c : NciConstants) (x : Externals) (data_len : Nat)
    (p_data : List Nat) (s : HalState) (v oid opcode len : Nat)
    (hsup : x.isObserveModeSupported = true)
    (hv : readByte p_data c.NCI_MSG_INDEX_FEATURE_VALUE = some v)
    (hrec : isRecognizedToken c v = true)
    (hoid : readByte p_data c.NCI_OID_INDEX = some oid)
    (hop : readByte p_data c.NCI_MSG_INDEX_FOR_FEATURE = some opcode)
    (hlen : readByte p_data c.NCI_MSG_LEN_INDEX = some len) :
    handleObserveModeTechCommand c x data_len p_data s =
      some ((len : Int),
        record (Event.vendorSpecificCallback oid opcode
                  [(techCommandSequence c x data_len p_data v s).1])
          (techCommandSequence c x data_len p_data v s).2) := by
  simp [handleObserveModeTechCommand, hsup, hv, hrec, hoid, hop, hlen]

theorem isRecognizedToken_iff (c : NciConstants) (v : Nat) :
    isRecognizedToken c v = true ↔
      (v = c.OBSERVE_MODE_TECH_COMMAND_SUPPORT_FLAG ∨
       v = c.OBSERVE_MODE_TECH_COMMAND_SUPPORT_FLAG_FOR_ALL_TECH ∨
       v = c.NCI_ANDROID_PASSIVE_OBSERVE_PARAM_DISABLE) := by
  simp [isRecognizedToken, or_assoc]

theorem techToggleIntent_iff (c : NciConstants) (v : Nat) :
    techToggleIntent c v = true ↔
      (v = c.OBSERVE_MODE_TECH_COMMAND_SUPPORT_FLAG ∨
       v = c.OBSERVE_MODE_TECH_COMMAND_SUPPORT_FLAG_FOR_ALL_TECH) := by
  simp [techToggleIntent]

/-- C1. `handleObserveModeTechCommand`, full-success path: with observe mode
supported and a recognised feature-value byte, if the RF deactivate send and
the discovery send both succeed then the handler returns, the flag afterwards
equals the toggle intent (true exactly for the two enable tokens) and the
single emitted response carries the status byte OK, whatever status the
intermediate tech command returned. -/
theorem techCommand_full_success (c : NciConstants) (x : Externals) (data_len : Nat)
    (p_data : List Nat) (s : HalState) (v oid opcode len : Nat)
    (hsup : x.isObserveModeSupported = true)
    (hv : readByte p_data c.NCI_MSG_INDEX_FEATURE_VALUE = some v)
    (htok : v = c.OBSERVE_MODE_TECH_COMMAND_SUPPORT_FLAG ∨
            v = c.OBSERVE_MODE_TECH_COMMAND_SUPPORT_FLAG_FOR_ALL_TECH ∨
            v = c.NCI_ANDROID_PASSIVE_OBSERVE_PARAM_DISABLE)
    (hoid : readByte p_data c.NCI_OID_INDEX = some oid)
    (hop : readByte p_data c.NCI_MSG_INDEX_FOR_FEATURE = some opcode)
    (hlen : readByte p_data c.NCI_MSG_LEN_INDEX = some len)
    (hdeact : x.rfDeactivateStatus = c.NFCSTATUS_SUCCESS)
    (hdisc : x.rfDiscoveryStatus = c.NFCSTATUS_SUCCESS) :
    ∃ s1, handleObserveModeTechCommand c x data_len p_data s = some ((len : Int), s1) ∧
      s1.bIsObserveModeEnabled = techToggleIntent c v ∧
      (s1.bIsObserveModeEnabled = true ↔
        (v = c.OBSERVE_MODE_TECH_COMMAND_SUPPORT_FLAG ∨
         v = c.OBSERVE_MODE_TECH_COMMAND_SUPPORT_FLAG_FOR_ALL_TECH)) ∧
      responses s1.log = responses s.log ++ [(oid, opcode, [c.NCI_RSP_OK % 256])] := by
  have hrec : isRecognizedToken c v = true := (isRecognizedToken_iff c v).2 htok
  refine ⟨_, techCommand_eq_of_recognized c x data_len p_data s v oid opcode len
    hsup hv hrec hoid hop hlen, ?_, ?_, ?_⟩
  · simp [techCommandSequence, hdeact, hdisc, record, setObserveModeFlag]
  · rw [← techToggleIntent_iff]
    simp [techCommandSequence, hdeact, hdisc, record, setObserveModeFlag]
  · cases hf : techToggleIntent c v <;>
      simp [techCommandSequence, hdeact, hdisc, record, setObserveModeFlag, hf, responses]

/-- Witness for C1: scenario A ends with the flag set and the response OK. -/
theorem techCommand_full_success_witness :
    ∃ s1, handleObserveModeTechCommand sampleConstants scenarioA 5 enableAllTechBuffer
        initialState = some ((2 : Int), s1) ∧
      s1.bIsObserveModeEnabled = true ∧
      responses s1.log = [(0x0C, 0x05, [0x00])] := by
  obtain ⟨s1, h, hflag, _, hresp⟩ :=
    techCommand_full_success sampleConstants scenarioA 5 enableAllTechBuffer initialState
      0x07 0x0C 0x05 2 rfl rfl (by decide) rfl rfl rfl rfl rfl
  exact ⟨s1, h, by rw [hflag]; decide, by simpa [initialState, responses, sampleConstants] using hresp⟩

/-! ## Case analysis of the handlers -/

/-- When the RF deactivate command fails the sequence stops after it. -/
theorem techCommandSequence_deactivate_failed (c : NciConstants) (x : Externals)
    (data_len : Nat) (p_data : List Nat) (v : Nat) (s : HalState)
    (hdeact : x.rfDeactivateStatus ≠ c.NFCSTATUS_SUCCESS) :
    techCommandSequence c x data_len p_data v s =
      (c.NCI_RSP_FAIL % 256,
        ⟨s.bIsObserveModeEnabled,
          s.log ++ [Event.send_ext_cmd 4 rf_deactivate_cmd x.rfDeactivateStatus]⟩) := by
  simp [techCommandSequence, hdeact, record, rf_deactivate_cmd]

/-- When the RF deactivate command succeeds and the discovery command fails. -/
theorem techCommandSequence_discovery_failed (c : NciConstants) (x : Externals)
    (data_len : Nat) (p_data : List Nat) (v : Nat) (s : HalState)
    (hdeact : x.rfDeactivateStatus = c.NFCSTATUS_SUCCESS)
    (hdisc : x.rfDiscoveryStatus ≠ c.NFCSTATUS_SUCCESS) :
    techCommandSequence c x data_len p_data v s =
      (c.NCI_RSP_FAIL % 256,
        ⟨s.bIsObserveModeEnabled, s.log ++ sequenceEvents c x data_len p_data v⟩) := by
  cases hf : techToggleIntent c v <;>
    simp [techCommandSequence, sequenceEvents, hdeact, hdisc, record, rf_deactivate_cmd, hf,
      hdeact ▸ hdisc]

/-- When the RF deactivate command and the discovery command both succeed. -/
theorem techCommandSequence_succeeded (c : NciConstants) (x : Externals)
    (data_len : Nat) (p_data : List Nat) (v : Nat) (s : HalState)
    (hdeact : x.rfDeactivateStatus = c.NFCSTATUS_SUCCESS)
    (hdisc : x.rfDiscoveryStatus = c.NFCSTATUS_SUCCESS) :
    techCommandSequence c x data_len p_data v s =
      (c.NCI_RSP_OK % 256,
        ⟨techToggleIntent c v, s.log ++ sequenceEvents c x data_len p_data v⟩) := by
  cases hf : techToggleIntent c v <;>
    simp [techCommandSequence, sequenceEvents, hdeact, hdisc, record, rf_deactivate_cmd, hf,
      setObserveModeFlag]

/-- Result of `handleObserveModeTechCommand` when validation fails. -/
theorem techCommand_eq_of_rejected (c : NciConstants) (x : Externals) (data_len : Nat)
    (p_data : List Nat) (s : HalState) (oid opcode len : Nat)
    (hrej : x.isObserveModeSupported = false ∨
      ∃ v, readByte p_data c.NCI_MSG_INDEX_FEATURE_VALUE = some v ∧
        isRecognizedToken c v = false)
    (hoid : readByte p_data c.NCI_OID_INDEX = some oid)
    (hop : readByte p_data c.NCI_MSG_INDEX_FOR_FEATURE = some opcode)
    (hlen : readByte p_data c.NCI_MSG_LEN_INDEX = some len) :
    handleObserveModeTechCommand c x data_len p_data s =
      some ((len : Int),
        record (Event.vendorSpecificCallback oid opcode [c.NCI_RSP_FAIL % 256]) s) := by
  cases hsup : x.isObserveModeSupported
  · simp [handleObserveModeTechCommand, hsup, hoid, hop, hlen]
  · rcases hrej with h | ⟨v, hv, hrec⟩
    · simp [hsup] at h
    · simp [handleObserveModeTechCommand, hsup, hv, hrec, hoid, hop, hlen]

/-- Every returning run of `handleObserveModeTechCommand` is one of: rejected
by validation, or the command sequence on a recognised feature value. -/
theorem techCommand_inv (c : NciConstants) (x : Externals) (data_len : Nat)
    (p_data : List Nat) (s s1 : HalState) (r : Int)
    (h : handleObserveModeTechCommand c x data_len p_data s = some (r, s1)) :
    ∃ oid opcode len, readByte p_data c.NCI_OID_INDEX = some oid ∧
      readByte p_data c.NCI_MSG_INDEX_FOR_FEATURE = some opcode ∧
      readByte p_data c.NCI_MSG_LEN_INDEX = some len ∧ r = (len : Int) ∧
      (((x.isObserveModeSupported = false ∨
          ∃ v, readByte p_data c.NCI_MSG_INDEX_FEATURE_VALUE = some v ∧
            isRecognizedToken c v = false) ∧
         s1 = record (Event.vendorSpecificCallback oid opcode [c.NCI_RSP_FAIL % 256]) s) ∨
       (x.isObserveModeSupported = true ∧
         ∃ v, readByte p_data c.NCI_MSG_INDEX_FEATURE_VALUE = some v ∧
           isRecognizedToken c v = true ∧
           s1 = record (Event.vendorSpecificCallback oid opcode
                          [(techCommandSequence c x data_len p_data v s).1])
                  (techCommandSequence c x data_len p_data v s).2)) := by
  unfold handleObserveModeTechCommand at h
  cases hsup : x.isObserveModeSupported
  · simp [hsup, Option.bind_eq_some] at h
    obtain ⟨oid, hoid, opcode, hop, len, hlen, hr, hs⟩ := h
    exact ⟨oid, opcode, len, hoid, hop, hlen, hr.symm, Or.inl ⟨Or.inl rfl, hs.symm⟩⟩
  · simp [hsup, Option.bind_eq_some] at h
    obtain ⟨v, hv, h⟩ := h
    cases hrec : isRecognizedToken c v
    · simp [hrec, Option.bind_eq_some] at h
      obtain ⟨oid, hoid, opcode, hop, len, hlen, hr, hs⟩ := h
      exact ⟨oid, opcode, len, hoid, hop, hlen, hr.symm,
        Or.inl ⟨Or.inr ⟨v, hv, hrec⟩, hs.symm⟩⟩
    · simp [hrec, Option.bind_eq_some] at h
      obtain ⟨oid, hoid, opcode, hop, len, hlen, hr, hs⟩ := h
      exact ⟨oid, opcode, len, hoid, hop, hlen, hr.symm,
        Or.inr ⟨rfl, v, hv, hrec, hs.symm⟩⟩

/-- Every returning run of `handleObserveMode` is one of: dropped, answered
FAIL without capability, or answered OK with the flag set. -/
theorem handleObserveMode_inv (c : NciConstants) (x : Externals) (data_len : Nat)
    (p_data : List Nat) (s s1 : HalState) (r : Int)
    (h : handleObserveMode c x data_len p_data s = some (r, s1)) :
    (data_len ≤ 4 ∧ r = 0 ∧ s1 = s) ∨
    (4 < data_len ∧ ∃ oid opcode len, readByte p_data c.NCI_OID_INDEX = some oid ∧
      readByte p_data c.NCI_MSG_INDEX_FOR_FEATURE = some opcode ∧
      readByte p_data c.NCI_MSG_LEN_INDEX = some len ∧ r = (len : Int) ∧
      ((x.isObserveModeSupported = false ∧
         s1 = record (Event.vendorSpecificCallback oid opcode [c.NCI_RSP_FAIL % 256]) s) ∨
       (x.isObserveModeSupported = true ∧
         ∃ v, readByte p_data c.NCI_MSG_INDEX_FEATURE_VALUE = some v ∧
           s1 = record (Event.vendorSpecificCallback oid opcode [c.NCI_RSP_OK % 256])
                  (setObserveModeFlag (v != 0) s)))) := by
  unfold handleObserveMode at h
  split at h
  · rename_i hle
    simp at h
    exact Or.inl ⟨hle, h.1.symm, h.2.symm⟩
  · rename_i hgt
    refine Or.inr ⟨Nat.lt_of_not_le hgt, ?_⟩
    cases hsup : x.isObserveModeSupported
    · simp [hsup, Option.bind_eq_some] at h
      obtain ⟨oid, hoid, opcode, hop, len, hlen, hr, hs⟩ := h
      exact ⟨oid, opcode, len, hoid, hop, hlen, hr.symm, Or.inl ⟨rfl, hs.symm⟩⟩
    · simp [hsup, Option.bind_eq_some] at h
      obtain ⟨v, hv, oid, hoid, opcode, hop, len, hlen, hr, hs⟩ := h
      exact ⟨oid, opcode, len, hoid, hop, hlen, hr.symm, Or.inr ⟨rfl, v, hv, hs.symm⟩⟩

/-- Every returning run of `handleGetObserveModeStatus` is one of: dropped,
or answered with the two-byte payload. -/
theorem handleGetObserveModeStatus_inv (c : NciConstants) (data_len : Nat)
    (p_data : List Nat) (s s1 : HalState) (r : Int)
    (h : handleGetObserveModeStatus c data_len p_data s = some (r, s1)) :
    (data_len < 4 ∧ r = 0 ∧ s1 = s) ∨
    (4 ≤ data_len ∧ ∃ oid opcode len, readByte p_data c.NCI_OID_INDEX = some oid ∧
      readByte p_data c.NCI_MSG_INDEX_FOR_FEATURE = some opcode ∧
      readByte p_data c.NCI_MSG_LEN_INDEX = some len ∧ r = (len : Int) ∧
      s1 = record (Event.vendorSpecificCallback oid opcode
              [c.NCI_RSP_OK % 256, if s.bIsObserveModeEnabled then 0x01 else 0x00]) s) := by
  unfold handleGetObserveModeStatus at h
  split at h
  · rename_i hlt
    simp at h
    exact Or.inl ⟨hlt, h.1.symm, h.2.symm⟩
  · rename_i hge
    refine Or.inr ⟨Nat.le_of_not_lt hge, ?_⟩
    simp [Option.bind_eq_some, isObserveModeEnabled] at h
    obtain ⟨oid, hoid, opcode, hop, len, hlen, hr, hs⟩ := h
    exact ⟨oid, opcode, len, hoid, hop, hlen, hr.symm, hs.symm⟩

/-! ## C2: what can change the flag -/

/-- Counterexample to C2 as stated: the simple toggle turns the flag on
without any command being sent, so no discovery command reported success. -/
theorem modeFlag_changes_without_discovery :
    handleObserveMode sampleConstants scenarioA 5 enableBuffer initialState =
        some ((2 : Int), ⟨true, [Event.vendorSpecificCallback 0x0C 0x02 [0x00]]⟩) ∧
      (⟨true, [Event.vendorSpecificCallback 0x0C 0x02 [0x00]]⟩ : HalState).bIsObserveModeEnabled ≠
        initialState.bIsObserveModeEnabled ∧
      sentCommands [Event.vendorSpecificCallback 0x0C 0x02 [0x00]] = [] ∧
      builderCalls [Event.vendorSpecificCallback 0x0C 0x02 [0x00]] = [] := by
  refine ⟨rfl, by decide, rfl, rfl⟩

/-- C2 (amended). For every invocation of one of the three handlers that
returns with the flag changed, either the handler is
`handleObserveModeTechCommand` and during that call a discovery command of
the builder was sent and reported success, or the handler is
`handleObserveMode` on a buffer longer than 4 with observe mode supported,
in which case the flag is the boolean of the feature-value byte and no
command was sent. `handleGetObserveModeStatus` never changes the flag. -/
theorem modeFlag_change_cause (h : Handler) (c : NciConstants) (x : Externals)
    (data_len : Nat) (p_data : List Nat) (s s1 : HalState) (r : Int)
    (hrun : runHandler h c x data_len p_data s = some (r, s1))
    (hne : s1.bIsObserveModeEnabled ≠ s.bIsObserveModeEnabled) :
    (h = Handler.observeModeTechCommand ∧
      x.rfDiscoveryStatus = c.NFCSTATUS_SUCCESS ∧
      ∃ cmd pre post,
        (cmd = x.reConfigRFDiscCmd ∨ cmd = x.getDiscoveryCommand) ∧
        s1.log = s.log ++ pre ++
          Event.send_ext_cmd cmd.length cmd c.NFCSTATUS_SUCCESS :: post) ∨
    (h = Handler.observeMode ∧ x.isObserveModeSupported = true ∧ 4 < data_len ∧
      ∃ v, readByte p_data c.NCI_MSG_INDEX_FEATURE_VALUE = some v ∧
        s1.bIsObserveModeEnabled = (v != 0) ∧
        sentCommands s1.log = sentCommands s.log) := by
  cases h with
  | observeMode =>
    right
    rcases handleObserveMode_inv c x data_len p_data s s1 r hrun with
      ⟨_, _, hs⟩ | ⟨hlt, oid, opcode, len, _, _, _, _, ⟨_, hs⟩ | ⟨hsup, v, hv, hs⟩⟩
    · exact absurd (by rw [hs]) hne
    · exact absurd (by rw [hs]; rfl) hne
    · refine ⟨rfl, hsup, hlt, v, hv, ?_, ?_⟩
      · rw [hs]; rfl
      · rw [hs]; simp [record, setObserveModeFlag, sentCommands]
  | observeModeTechCommand =>
    left
    obtain ⟨oid, opcode, len, _, _, _, _, hcase⟩ :=
      techCommand_inv c x data_len p_data s s1 r hrun
    rcases hcase with ⟨_, hs⟩ | ⟨_, v, _, _, hs⟩
    · exact absurd (by rw [hs]; rfl) hne
    · by_cases hdeact : x.rfDeactivateStatus = c.NFCSTATUS_SUCCESS
      · by_cases hdisc : x.rfDiscoveryStatus = c.NFCSTATUS_SUCCESS
        · rw [techCommandSequence_succeeded c x data_len p_data v s hdeact hdisc] at hs
          refine ⟨rfl, hdisc, ?_⟩
          cases hf : techToggleIntent c v
          · refine ⟨x.getDiscoveryCommand,
              [Event.send_ext_cmd 4 rf_deactivate_cmd x.rfDeactivateStatus,
               Event.getDiscoveryCommand],
              [Event.vendorSpecificCallback oid opcode [c.NCI_RSP_OK % 256]], Or.inr rfl, ?_⟩
            rw [hs]
            simp [record, sequenceEvents, hf, hdisc]
          · refine ⟨x.reConfigRFDiscCmd,
              [Event.send_ext_cmd 4 rf_deactivate_cmd x.rfDeactivateStatus,
               Event.send_ext_cmd data_len p_data x.nciStatus,
               Event.reConfigRFDiscCmd],
              [Event.vendorSpecificCallback oid opcode [c.NCI_RSP_OK % 256]], Or.inl rfl, ?_⟩
            rw [hs]
            simp [record, sequenceEvents, hf, hdisc]
        · rw [techCommandSequence_discovery_failed c x data_len p_data v s hdeact hdisc] at hs
          exact absurd (by rw [hs]; rfl) hne
      · rw [techCommandSequence_deactivate_failed c x data_len p_data v s hdeact] at hs
        exact absurd (by rw [hs]; rfl) hne
  | getObserveModeStatus =>
    rcases handleGetObserveModeStatus_inv c data_len p_data s s1 r hrun with
      ⟨_, _, hs⟩ | ⟨_, oid, opcode, len, _, _, _, _, hs⟩
    · exact absurd (by rw [hs]) hne
    · exact absurd (by rw [hs]; rfl) hne

/-- Witness for C2 (amended): scenario A changes the flag from off to on, and
the reconfigured discovery command was sent with success. -/
theorem modeFlag_change_cause_witness :
    (Handler.observeModeTechCommand = Handler.observeModeTechCommand ∧
      scenarioA.rfDiscoveryStatus = sampleConstants.NFCSTATUS_SUCCESS ∧
      ∃ cmd pre post,
        (cmd = scenarioA.reConfigRFDiscCmd ∨ cmd = scenarioA.getDiscoveryCommand) ∧
        [Event.send_ext_cmd 4 rf_deactivate_cmd 0,
         Event.send_ext_cmd 5 enableAllTechBuffer 0xFF,
         Event.reConfigRFDiscCmd,
         Event.send_ext_cmd 6 scenarioA.reConfigRFDiscCmd 0,
         Event.vendorSpecificCallback 0x0C 0x05 [0x00]] = initialState.log ++ pre ++
          Event.send_ext_cmd cmd.length cmd sampleConstants.NFCSTATUS_SUCCESS :: post) ∨
    (Handler.observeModeTechCommand = Handler.observeMode ∧
      scenarioA.isObserveModeSupported = true ∧ 4 < 5 ∧
      ∃ v, readByte enableAllTechBuffer sampleConstants.NCI_MSG_INDEX_FEATURE_VALUE = some v ∧
        true = (v != 0) ∧
        sentCommands [Event.send_ext_cmd 4 rf_deactivate_cmd 0,
         Event.send_ext_cmd 5 enableAllTechBuffer 0xFF,
         Event.reConfigRFDiscCmd,
         Event.send_ext_cmd 6 scenarioA.reConfigRFDiscCmd 0,
         Event.vendorSpecificCallback 0x0C 0x05 [0x00]] = sentCommands initialState.log) :=
  modeFlag_change_cause Handler.observeModeTechCommand sampleConstants scenarioA 5
    enableAllTechBuffer initialState
    ⟨true, [Event.send_ext_cmd 4 rf_deactivate_cmd 0,
         Event.send_ext_cmd 5 enableAllTechBuffer 0xFF,
         Event.reConfigRFDiscCmd,
         Event.send_ext_cmd 6 scenarioA.reConfigRFDiscCmd 0,
         Event.vendorSpecificCallback 0x0C 0x05 [0x00]]⟩ 2 rfl (by decide)

/-! ## C3 to C5: the failure paths of the tech-scoped toggle -/

/-- C3. `handleObserveModeTechCommand`, deactivate failure: with observe mode
supported and a recognised feature-value byte (enable or disable), if the RF
deactivate send fails then the handler returns with the flag unchanged, the
emitted status byte is FAIL, and the RF deactivate command is the only
command sent: the log grows by exactly that send and the response, so
neither the tech command nor a discovery command is sent and the builder is
not called. -/
theorem techCommand_deactivate_failure (c : NciConstants) (x : Externals) (data_len : Nat)
    (p_data : List Nat) (s : HalState) (v oid opcode len : Nat)
    (hsup : x.isObserveModeSupported = true)
    (hv : readByte p_data c.NCI_MSG_INDEX_FEATURE_VALUE = some v)
    (htok : v = c.OBSERVE_MODE_TECH_COMMAND_SUPPORT_FLAG ∨
            v = c.OBSERVE_MODE_TECH_COMMAND_SUPPORT_FLAG_FOR_ALL_TECH ∨
            v = c.NCI_ANDROID_PASSIVE_OBSERVE_PARAM_DISABLE)
    (hoid : readByte p_data c.NCI_OID_INDEX = some oid)
    (hop : readByte p_data c.NCI_MSG_INDEX_FOR_FEATURE = some opcode)
    (hlen : readByte p_data c.NCI_MSG_LEN_INDEX = some len)
    (hdeact : x.rfDeactivateStatus ≠ c.NFCSTATUS_SUCCESS) :
    ∃ s1, handleObserveModeTechCommand c x data_len p_data s = some ((len : Int), s1) ∧
      s1.bIsObserveModeEnabled = s.bIsObserveModeEnabled ∧
      s1.log = s.log ++
        [Event.send_ext_cmd 4 [0x21, 0x06, 0x01, 0x00] x.rfDeactivateStatus,
         Event.vendorSpecificCallback oid opcode [c.NCI_RSP_FAIL % 256]] ∧
      responses s1.log = responses s.log ++ [(oid, opcode, [c.NCI_RSP_FAIL % 256])] ∧
      sentCommands s1.log = sentCommands s.log ++ [[0x21, 0x06, 0x01, 0x00]] ∧
      builderCalls s1.log = builderCalls s.log := by
  have hrec : isRecognizedToken c v = true := (isRecognizedToken_iff c v).2 htok
  refine ⟨_, techCommand_eq_of_recognized c x data_len p_data s v oid opcode len
    hsup hv hrec hoid hop hlen, ?_, ?_, ?_, ?_, ?_⟩ <;>
    rw [techCommandSequence_deactivate_failed c x data_len p_data v s hdeact] <;>
    simp [record, responses, sentCommands, builderCalls, rf_deactivate_cmd]

/-- Witness for C3: an enable-for-all-tech request whose deactivate fails. -/
theorem techCommand_deactivate_failure_witness :
    ∃ s1, handleObserveModeTechCommand sampleConstants scenarioDeactivateFails 5
        enableAllTechBuffer initialState = some ((2 : Int), s1) ∧
      s1.bIsObserveModeEnabled = false ∧
      s1.log = [Event.send_ext_cmd 4 [0x21, 0x06, 0x01, 0x00] 0xFF,
                Event.vendorSpecificCallback 0x0C 0x05 [0x03]] := by
  obtain ⟨s1, h, hflag, hlog, _⟩ :=
    techCommand_deactivate_failure sampleConstants scenarioDeactivateFails 5
      enableAllTechBuffer initialState 0x07 0x0C 0x05 2 rfl rfl (by decide) rfl rfl rfl
      (by decide)
  exact ⟨s1, h, hflag, hlog⟩

/-- C4. `handleObserveModeTechCommand`, discovery failure: with observe mode
supported and a recognised feature-value byte, if the RF deactivate send
succeeds and the discovery send fails then the handler returns with the flag
at its prior value, whatever that was, and the emitted status byte is FAIL. -/
theorem techCommand_discovery_failure (c : NciConstants) (x : Externals) (data_len : Nat)
    (p_data : List Nat) (s : HalState) (v oid opcode len : Nat)
    (hsup : x.isObserveModeSupported = true)
    (hv : readByte p_data c.NCI_MSG_INDEX_FEATURE_VALUE = some v)
    (htok : v = c.OBSERVE_MODE_TECH_COMMAND_SUPPORT_FLAG ∨
            v = c.OBSERVE_MODE_TECH_COMMAND_SUPPORT_FLAG_FOR_ALL_TECH ∨
            v = c.NCI_ANDROID_PASSIVE_OBSERVE_PARAM_DISABLE)
    (hoid : readByte p_data c.NCI_OID_INDEX = some oid)
    (hop : readByte p_data c.NCI_MSG_INDEX_FOR_FEATURE = some opcode)
    (hlen : readByte p_data c.NCI_MSG_LEN_INDEX = some len)
    (hdeact : x.rfDeactivateStatus = c.NFCSTATUS_SUCCESS)
    (hdisc : x.rfDiscoveryStatus ≠ c.NFCSTATUS_SUCCESS) :
    ∃ s1, handleObserveModeTechCommand c x data_len p_data s = some ((len : Int), s1) ∧
      s1.bIsObserveModeEnabled = s.bIsObserveModeEnabled ∧
      responses s1.log = responses s.log ++ [(oid, opcode, [c.NCI_RSP_FAIL % 256])] := by
  have hrec : isRecognizedToken c v = true := (isRecognizedToken_iff c v).2 htok
  refine ⟨_, techCommand_eq_of_recognized c x data_len p_data s v oid opcode len
    hsup hv hrec hoid hop hlen, ?_, ?_⟩ <;>
    rw [techCommandSequence_discovery_failed c x data_len p_data v s hdeact hdisc]
  · rfl
  · cases hf : techToggleIntent c v <;> simp [record, responses, sequenceEvents, hf]

/-- Witness for C4: scenario B (explicit disable, deactivate succeeds,
discovery fails) from a state with observe mode on keeps it on and answers
FAIL. -/
theorem techCommand_discovery_failure_witness :
    ∃ s1, handleObserveModeTechCommand sampleConstants scenarioB 5 disableTechBuffer
        enabledState = some ((2 : Int), s1) ∧
      s1.bIsObserveModeEnabled = true ∧
      responses s1.log = [(0x0C, 0x05, [0x03])] := by
  obtain ⟨s1, h, hflag, hresp⟩ :=
    techCommand_discovery_failure sampleConstants scenarioB 5 disableTechBuffer enabledState
      0x00 0x0C 0x05 2 rfl rfl (by decide) rfl rfl rfl rfl (by decide)
  exact ⟨s1, h, hflag, by simpa [enabledState, responses, sampleConstants] using hresp⟩

/-- C5. `handleObserveModeTechCommand`, validation failure: when observe mode
is not supported (whatever the feature-value byte), or when the
feature-value byte is none of the three recognised tokens, the handler
returns with the flag unchanged, the emitted status byte is FAIL, and
nothing else happens: the log grows by the response only, so no command is
sent and the discovery command builder is not called. -/
theorem techCommand_validation_failure (c : NciConstants) (x : Externals) (data_len : Nat)
    (p_data : List Nat) (s : HalState) (oid opcode len : Nat)
    (hrej : x.isObserveModeSupported = false ∨
      ∃ v, readByte p_data c.NCI_MSG_INDEX_FEATURE_VALUE = some v ∧
        v ≠ c.OBSERVE_MODE_TECH_COMMAND_SUPPORT_FLAG ∧
        v ≠ c.OBSERVE_MODE_TECH_COMMAND_SUPPORT_FLAG_FOR_ALL_TECH ∧
        v ≠ c.NCI_ANDROID_PASSIVE_OBSERVE_PARAM_DISABLE)
    (hoid : readByte p_data c.NCI_OID_INDEX = some oid)
    (hop : readByte p_data c.NCI_MSG_INDEX_FOR_FEATURE = some opcode)
    (hlen : readByte p_data c.NCI_MSG_LEN_INDEX = some len) :
    ∃ s1, handleObserveModeTechCommand c x data_len p_data s = some ((len : Int), s1) ∧
      s1.bIsObserveModeEnabled = s.bIsObserveModeEnabled ∧
      s1.log = s.log ++ [Event.vendorSpecificCallback oid opcode [c.NCI_RSP_FAIL % 256]] ∧
      responses s1.log = responses s.log ++ [(oid, opcode, [c.NCI_RSP_FAIL % 256])] ∧
      sentCommands s1.log = sentCommands s.log ∧
      builderCalls s1.log = builderCalls s.log := by
  have hrej2 : x.isObserveModeSupported = false ∨
      ∃ v, readByte p_data c.NCI_MSG_INDEX_FEATURE_VALUE = some v ∧
        isRecognizedToken c v = false := by
    rcases hrej with h | ⟨v, hv, h1, h2, h3⟩
    · exact Or.inl h
    · refine Or.inr ⟨v, hv, ?_⟩
      cases hrec : isRecognizedToken c v
      · rfl
      · rcases (isRecognizedToken_iff c v).1 hrec with h | h | h
        · exact absurd h h1
        · exact absurd h h2
        · exact absurd h h3
  refine ⟨_, techCommand_eq_of_rejected c x data_len p_data s oid opcode len
    hrej2 hoid hop hlen, ?_, ?_, ?_, ?_, ?_⟩ <;>
    simp [record, responses, sentCommands, builderCalls]

/-- Witness for C5: scenario C (observe mode not supported) on an
enable-for-all-tech request. -/
theorem techCommand_validation_failure_witness :
    ∃ s1, handleObserveModeTechCommand sampleConstants scenarioC 5 enableAllTechBuffer
        enabledState = some ((2 : Int), s1) ∧
      s1.bIsObserveModeEnabled = true ∧
      s1.log = [Event.vendorSpecificCallback 0x0C 0x05 [0x03]] ∧
      sentCommands s1.log = [] := by
  obtain ⟨s1, h, hflag, hlog, _, hsent, _⟩ :=
    techCommand_validation_failure sampleConstants scenarioC 5 enableAllTechBuffer
      enabledState 0x0C 0x05 2 (Or.inl rfl) rfl rfl rfl
  exact ⟨s1, h, hflag, hlog, hsent⟩

/-! ## C6 to C8: the simple toggle -/

/-- C6. `handleObserveMode` with observe mode supported: on every buffer that
passes the length check (declared length above 4) the handler returns, the
flag afterwards is the boolean of the feature-value byte (off for 0x00, on
for every non-zero byte), and exactly one response is emitted, carrying the
opcode byte, the for-feature selector byte and the single status byte OK;
nothing else is logged. -/
theorem handleObserveMode_supported (c : NciConstants) (x : Externals) (data_len : Nat)
    (p_data : List Nat) (s : HalState) (v oid opcode len : Nat)
    (hlength : 4 < data_len)
    (hsup : x.isObserveModeSupported = true)
    (hv : readByte p_data c.NCI_MSG_INDEX_FEATURE_VALUE = some v)
    (hoid : readByte p_data c.NCI_OID_INDEX = some oid)
    (hop : readByte p_data c.NCI_MSG_INDEX_FOR_FEATURE = some opcode)
    (hlen : readByte p_data c.NCI_MSG_LEN_INDEX = some len) :
    ∃ s1, handleObserveMode c x data_len p_data s = some ((len : Int), s1) ∧
      (v = 0 → s1.bIsObserveModeEnabled = false) ∧
      (v ≠ 0 → s1.bIsObserveModeEnabled = true) ∧
      s1.log = s.log ++ [Event.vendorSpecificCallback oid opcode [c.NCI_RSP_OK % 256]] ∧
      responses s1.log = responses s.log ++ [(oid, opcode, [c.NCI_RSP_OK % 256])] := by
  have hnle : ¬ data_len ≤ 4 := Nat.not_le.mpr hlength
  refine ⟨record (Event.vendorSpecificCallback oid opcode [c.NCI_RSP_OK % 256])
      (setObserveModeFlag (v != 0) s), ?_, ?_, ?_, ?_, ?_⟩
  · simp [handleObserveMode, hnle, hsup, hv, hoid, hop, hlen]
  · intro h0
    simp [record, setObserveModeFlag, h0]
  · intro h0
    simp [record, setObserveModeFlag, h0]
  · simp [record, setObserveModeFlag]
  · simp [record, setObserveModeFlag, responses]

/-- Witness for C6: a feature-value byte 0x02 (non-zero, not 0x01) turns the
flag on. -/
theorem handleObserveMode_supported_witness :
    ∃ s1, handleObserveMode sampleConstants scenarioA 5 [0x2F, 0x0C, 0x02, 0x02, 0x02]
        initialState = some ((2 : Int), s1) ∧
      s1.bIsObserveModeEnabled = true ∧
      s1.log = [Event.vendorSpecificCallback 0x0C 0x02 [0x00]] := by
  obtain ⟨s1, h, _, hon, hlog, _⟩ :=
    handleObserveMode_supported sampleConstants scenarioA 5 [0x2F, 0x0C, 0x02, 0x02, 0x02]
      initialState 0x02 0x0C 0x02 2 (by decide) rfl rfl rfl rfl rfl
  exact ⟨s1, h, hon (by decide), hlog⟩

/-- C7. `handleObserveMode` with observe mode unsupported: on every buffer
that passes the length check, whatever the feature-value byte, the handler
returns with the flag unchanged and exactly one response is emitted, whose
single status byte is FAIL. -/
theorem handleObserveMode_unsupported (c : NciConstants) (x : Externals) (data_len : Nat)
    (p_data : List Nat) (s : HalState) (oid opcode len : Nat)
    (hlength : 4 < data_len)
    (hsup : x.isObserveModeSupported = false)
    (hoid : readByte p_data c.NCI_OID_INDEX = some oid)
    (hop : readByte p_data c.NCI_MSG_INDEX_FOR_FEATURE = some opcode)
    (hlen : readByte p_data c.NCI_MSG_LEN_INDEX = some len) :
    ∃ s1, handleObserveMode c x data_len p_data s = some ((len : Int), s1) ∧
      s1.bIsObserveModeEnabled = s.bIsObserveModeEnabled ∧
      s1.log = s.log ++ [Event.vendorSpecificCallback oid opcode [c.NCI_RSP_FAIL % 256]] ∧
      responses s1.log = responses s.log ++ [(oid, opcode, [c.NCI_RSP_FAIL % 256])] := by
  have hnle : ¬ data_len ≤ 4 := Nat.not_le.mpr hlength
  refine ⟨record (Event.vendorSpecificCallback oid opcode [c.NCI_RSP_FAIL % 256]) s,
    ?_, ?_, ?_, ?_⟩
  · simp [handleObserveMode, hnle, hsup, hoid, hop, hlen]
  · rfl
  · rfl
  · simp [record, responses]

/-- Witness for C7: scenario C on an enable request leaves the flag off. -/
theorem handleObserveMode_unsupported_witness :
    ∃ s1, handleObserveMode sampleConstants scenarioC 5 enableBuffer initialState =
        some ((2 : Int), s1) ∧
      s1.bIsObserveModeEnabled = false ∧
      s1.log = [Event.vendorSpecificCallback 0x0C 0x02 [0x03]] := by
  obtain ⟨s1, h, hflag, hlog, _⟩ :=
    handleObserveMode_unsupported sampleConstants scenarioC 5 enableBuffer initialState
      0x0C 0x02 2 (by decide) rfl rfl rfl rfl
  exact ⟨s1, h, hflag, hlog⟩

/-- C8. `handleObserveMode`, malformed input: for every declared length of at
most 4 (4 included), whatever the capability and the buffer contents, the
handler returns 0 and leaves the whole state as it was: no response is
emitted and the flag is unchanged. -/
theorem handleObserveMode_malformed (c : NciConstants) (x : Externals) (data_len : Nat)
    (p_data : List Nat) (s : HalState) (hlength : data_len ≤ 4) :
    handleObserveMode c x data_len p_data s = some ((0 : Int), s) := by
  simp [handleObserveMode, hlength]

/-- Witness for C8: a declared length of exactly 4 is dropped even though
the buffer holds a complete enable command. -/
theorem handleObserveMode_malformed_witness :
    handleObserveMode sampleConstants scenarioA 4 enableBuffer initialState =
      some ((0 : Int), initialState) :=
  handleObserveMode_malformed sampleConstants scenarioA 4 enableBuffer initialState
    (by decide)

/-! ## C9: the status query -/

/-- C9. `handleGetObserveModeStatus` on a validly framed query (declared
length at least 4): for every prior flag value the handler returns with the
flag unchanged, no command sent, and exactly one response emitted, whose
payload is the two bytes OK, 0x01 when the flag is on and OK, 0x00 when it
is off; the first payload byte is never FAIL (when the OK and FAIL bytes
differ). -/
theorem handleGetObserveModeStatus_valid (c : NciConstants) (data_len : Nat)
    (p_data : List Nat) (s : HalState) (oid opcode len : Nat)
    (hlength : 4 ≤ data_len)
    (hoid : readByte p_data c.NCI_OID_INDEX = some oid)
    (hop : readByte p_data c.NCI_MSG_INDEX_FOR_FEATURE = some opcode)
    (hlen : readByte p_data c.NCI_MSG_LEN_INDEX = some len) :
    ∃ s1 payload, handleGetObserveModeStatus c data_len p_data s = some ((len : Int), s1) ∧
      s1.bIsObserveModeEnabled = s.bIsObserveModeEnabled ∧
      s1.log = s.log ++ [Event.vendorSpecificCallback oid opcode payload] ∧
      sentCommands s1.log = sentCommands s.log ∧
      responses s1.log = responses s.log ++ [(oid, opcode, payload)] ∧
      (s.bIsObserveModeEnabled = true → payload = [c.NCI_RSP_OK % 256, 0x01]) ∧
      (s.bIsObserveModeEnabled = false → payload = [c.NCI_RSP_OK % 256, 0x00]) ∧
      (c.NCI_RSP_OK % 256 ≠ c.NCI_RSP_FAIL % 256 →
        payload.head? ≠ some (c.NCI_RSP_FAIL % 256)) := by
  have hnlt : ¬ data_len < 4 := Nat.not_lt.mpr hlength
  refine ⟨record (Event.vendorSpecificCallback oid opcode
      [c.NCI_RSP_OK % 256, if s.bIsObserveModeEnabled then 0x01 else 0x00]) s,
    [c.NCI_RSP_OK % 256, if s.bIsObserveModeEnabled then 0x01 else 0x00],
    ?_, ?_, ?_, ?_, ?_, ?_, ?_, ?_⟩
  · simp [handleGetObserveModeStatus, hnlt, hoid, hop, hlen, isObserveModeEnabled]
  · rfl
  · rfl
  · simp [record, sentCommands]
  · simp [record, responses]
  · intro h; simp [h]
  · intro h; simp [h]
  · intro h; simpa using h

/-- Witness for C9: the query `2F 0C 01 04` with observe mode on is answered
with the payload OK, 0x01. -/
theorem handleGetObserveModeStatus_valid_witness :
    ∃ s1, handleGetObserveModeStatus sampleConstants 4 statusQueryBuffer enabledState =
        some ((1 : Int), s1) ∧
      s1.bIsObserveModeEnabled = true ∧
      s1.log = [Event.vendorSpecificCallback 0x0C 0x04 [0x00, 0x01]] := by
  obtain ⟨s1, payload, h, hflag, hlog, _, _, hon, _, _⟩ :=
    handleGetObserveModeStatus_valid sampleConstants 4 statusQueryBuffer enabledState
      0x0C 0x04 1 (by decide) rfl rfl rfl
  refine ⟨s1, h, hflag, ?_⟩
  rw [hlog, hon rfl]
  rfl

/-! ## C10: length validation -/

/-- C10. `handleObserveModeTechCommand` has no length check, unlike its two
siblings. With a declared length of 0 and an enable command in the memory
behind the pointer it runs the whole sequence (three commands sent, flag
turned on, response OK); with an empty buffer, or with a 4-byte buffer that
has no feature-value byte, it reads past the end of the buffer. On the same
empty input `handleObserveMode` and `handleGetObserveModeStatus` return 0
and touch nothing. -/
theorem techCommand_no_length_check :
    handleObserveModeTechCommand sampleConstants scenarioA 0 enableAllTechBuffer initialState =
        some ((2 : Int),
          ⟨true,
           [Event.send_ext_cmd 4 [0x21, 0x06, 0x01, 0x00] 0,
            Event.send_ext_cmd 0 enableAllTechBuffer 0xFF,
            Event.reConfigRFDiscCmd,
            Event.send_ext_cmd 6 [0x21, 0x03, 0x03, 0x01, 0x80, 0x01] 0,
            Event.vendorSpecificCallback 0x0C 0x05 [0x00]]⟩) ∧
      handleObserveModeTechCommand sampleConstants scenarioA 0 [] initialState = none ∧
      handleObserveModeTechCommand sampleConstants scenarioA 4 statusQueryBuffer initialState =
        none ∧
      handleObserveMode sampleConstants scenarioA 0 [] initialState =
        some ((0 : Int), initialState) ∧
      handleGetObserveModeStatus sampleConstants 0 [] initialState =
        some ((0 : Int), initialState) := by
  refine ⟨rfl, rfl, rfl, rfl, rfl⟩

/-! ## C11 and C12: the response of the toggles -/

/-- A byte read is below 256. -/
theorem readByte_lt (p_data : List Nat) (i b : Nat) (h : readByte p_data i = some b) :
    b < 256 := by
  simp only [readByte, Option.map_eq_some'] at h
  obtain ⟨a, _, ha⟩ := h
  rw [← ha]
  exact Nat.mod_lt a (by decide)

/-- The command sequence emits no response of its own. -/
theorem responses_sequenceEvents (c : NciConstants) (x : Externals) (data_len : Nat)
    (p_data : List Nat) (v : Nat) :
    responses (sequenceEvents c x data_len p_data v) = [] := by
  cases hf : techToggleIntent c v <;> simp [sequenceEvents, hf, responses]

/-- C11. `handleObserveModeTechCommand` emits exactly one response on every
branch: on every buffer that holds the bytes the handler reads, for every
capability value, feature-value byte and combination of send outcomes, the
handler returns and the log grows by events that contain no response,
followed by one call of the vendor callback as the last event. That call
carries the opcode byte, the for-feature selector byte and a payload of
exactly one status byte, which is OK or FAIL. -/
theorem techCommand_one_response (c : NciConstants) (x : Externals) (data_len : Nat)
    (p_data : List Nat) (s : HalState) (oid opcode len : Nat)
    (hv : x.isObserveModeSupported = true →
      ∃ v, readByte p_data c.NCI_MSG_INDEX_FEATURE_VALUE = some v)
    (hoid : readByte p_data c.NCI_OID_INDEX = some oid)
    (hop : readByte p_data c.NCI_MSG_INDEX_FOR_FEATURE = some opcode)
    (hlen : readByte p_data c.NCI_MSG_LEN_INDEX = some len) :
    ∃ s1 evs status,
      handleObserveModeTechCommand c x data_len p_data s = some ((len : Int), s1) ∧
      s1.log = s.log ++ evs ++ [Event.vendorSpecificCallback oid opcode [status]] ∧
      responses evs = [] ∧
      responses s1.log = responses s.log ++ [(oid, opcode, [status])] ∧
      (status = c.NCI_RSP_OK % 256 ∨ status = c.NCI_RSP_FAIL % 256) := by
  have hrejected : (x.isObserveModeSupported = false ∨
      ∃ v, readByte p_data c.NCI_MSG_INDEX_FEATURE_VALUE = some v ∧
        isRecognizedToken c v = false) →
      ∃ s1 evs status,
        handleObserveModeTechCommand c x data_len p_data s = some ((len : Int), s1) ∧
        s1.log = s.log ++ evs ++ [Event.vendorSpecificCallback oid opcode [status]] ∧
        responses evs = [] ∧
        responses s1.log = responses s.log ++ [(oid, opcode, [status])] ∧
        (status = c.NCI_RSP_OK % 256 ∨ status = c.NCI_RSP_FAIL % 256) := by
    intro hrej
    refine ⟨_, [], c.NCI_RSP_FAIL % 256,
      techCommand_eq_of_rejected c x data_len p_data s oid opcode len hrej hoid hop hlen,
      ?_, rfl, ?_, Or.inr rfl⟩
    · simp [record]
    · simp [record, responses]
  cases hsup : x.isObserveModeSupported
  · exact hrejected (Or.inl hsup)
  · obtain ⟨v, hfv⟩ := hv hsup
    cases hrec : isRecognizedToken c v
    · exact hrejected (Or.inr ⟨v, hfv, hrec⟩)
    · have heq := techCommand_eq_of_recognized c x data_len p_data s v oid opcode len
        hsup hfv hrec hoid hop hlen
      by_cases hdeact : x.rfDeactivateStatus = c.NFCSTATUS_SUCCESS
      · by_cases hdisc : x.rfDiscoveryStatus = c.NFCSTATUS_SUCCESS
        · rw [techCommandSequence_succeeded c x data_len p_data v s hdeact hdisc] at heq
          refine ⟨_, sequenceEvents c x data_len p_data v, c.NCI_RSP_OK % 256, heq,
            ?_, responses_sequenceEvents c x data_len p_data v, ?_, Or.inl rfl⟩
          · simp [record]
          · simp [record, responses, responses_sequenceEvents]
        · rw [techCommandSequence_discovery_failed c x data_len p_data v s hdeact hdisc]
            at heq
          refine ⟨_, sequenceEvents c x data_len p_data v, c.NCI_RSP_FAIL % 256, heq,
            ?_, responses_sequenceEvents c x data_len p_data v, ?_, Or.inr rfl⟩
          · simp [record]
          · simp [record, responses, responses_sequenceEvents]
      · rw [techCommandSequence_deactivate_failed c x data_len p_data v s hdeact] at heq
        refine ⟨_, [Event.send_ext_cmd 4 rf_deactivate_cmd x.rfDeactivateStatus],
          c.NCI_RSP_FAIL % 256, heq, ?_, rfl, ?_, Or.inr rfl⟩
        · simp [record]
        · simp [record, responses]

/-- Witness for C11: an unknown feature value with observe mode supported is
answered by one FAIL response. -/
theorem techCommand_one_response_witness :
    ∃ s1 evs status,
      handleObserveModeTechCommand sampleConstants scenarioA 5 unknownTokenBuffer
        initialState = some ((2 : Int), s1) ∧
      s1.log = initialState.log ++ evs ++ [Event.vendorSpecificCallback 0x0C 0x05 [status]] ∧
      responses evs = [] ∧
      responses s1.log = responses initialState.log ++ [(0x0C, 0x05, [status])] ∧
      (status = sampleConstants.NCI_RSP_OK % 256 ∨
        status = sampleConstants.NCI_RSP_FAIL % 256) :=
  techCommand_one_response sampleConstants scenarioA 5 unknownTokenBuffer initialState
    0x0C 0x05 2 (fun _ => ⟨0x55, rfl⟩) rfl rfl rfl

/-- C12. All-or-nothing commit seen through the response: for both toggle
handlers, whenever a run returns and has emitted a response, the payload is
the single byte OK or the single byte FAIL; a FAIL status implies the flag
is unchanged from before the call, and an OK status implies the flag now
equals the requested state (the boolean of the feature-value byte for
`handleObserveMode`, the toggle intent for `handleObserveModeTechCommand`).
The OK and FAIL macros are taken to differ as bytes. -/
theorem toggle_all_or_nothing (h : Handler) (c : NciConstants) (x : Externals)
    (data_len : Nat) (p_data : List Nat) (s s1 : HalState) (r : Int)
    (oid opcode : Nat) (payload : List Nat)
    (htoggle : h = Handler.observeMode ∨ h = Handler.observeModeTechCommand)
    (hdistinct : c.NCI_RSP_OK % 256 ≠ c.NCI_RSP_FAIL % 256)
    (hrun : runHandler h c x data_len p_data s = some (r, s1))
    (hresp : responses s1.log = responses s.log ++ [(oid, opcode, payload)]) :
    (payload = [c.NCI_RSP_OK % 256] ∨ payload = [c.NCI_RSP_FAIL % 256]) ∧
    (payload = [c.NCI_RSP_FAIL % 256] →
      s1.bIsObserveModeEnabled = s.bIsObserveModeEnabled) ∧
    (payload = [c.NCI_RSP_OK % 256] →
      ∃ v, readByte p_data c.NCI_MSG_INDEX_FEATURE_VALUE = some v ∧
        s1.bIsObserveModeEnabled =
          (if h = Handler.observeMode then (v != 0) else techToggleIntent c v)) := by
  have hne : [c.NCI_RSP_OK % 256] ≠ [c.NCI_RSP_FAIL % 256] := by
    intro hh
    exact hdistinct (List.head_eq_of_cons_eq hh)
  rcases htoggle with hh | hh
  · subst hh
    rcases handleObserveMode_inv c x data_len p_data s s1 r hrun with
      ⟨_, _, hs⟩ | ⟨_, o, q, len, _, _, _, _, ⟨_, hs⟩ | ⟨_, v, hv, hs⟩⟩
    · rw [hs] at hresp
      simp at hresp
    · rw [hs] at hresp
      simp [record, responses] at hresp
      obtain ⟨_, _, hp⟩ := hresp
      subst hp
      exact ⟨Or.inr rfl, fun _ => by rw [hs]; rfl, fun hp => absurd hp.symm hne⟩
    · rw [hs] at hresp
      simp [record, responses, setObserveModeFlag] at hresp
      obtain ⟨_, _, hp⟩ := hresp
      subst hp
      exact ⟨Or.inl rfl, fun hp => absurd hp hne, fun _ => ⟨v, hv, by rw [hs]; rfl⟩⟩
  · subst hh
    obtain ⟨o, q, len, _, _, _, _, hcase⟩ := techCommand_inv c x data_len p_data s s1 r hrun
    rcases hcase with ⟨_, hs⟩ | ⟨_, v, hv, _, hs⟩
    · rw [hs] at hresp
      simp [record, responses] at hresp
      obtain ⟨_, _, hp⟩ := hresp
      subst hp
      exact ⟨Or.inr rfl, fun _ => by rw [hs]; rfl, fun hp => absurd hp.symm hne⟩
    · by_cases hdeact : x.rfDeactivateStatus = c.NFCSTATUS_SUCCESS
      · by_cases hdisc : x.rfDiscoveryStatus = c.NFCSTATUS_SUCCESS
        · rw [techCommandSequence_succeeded c x data_len p_data v s hdeact hdisc] at hs
          rw [hs] at hresp
          simp [record, responses, responses_sequenceEvents] at hresp
          obtain ⟨_, _, hp⟩ := hresp
          subst hp
          refine ⟨Or.inl rfl, fun hp => absurd hp hne, fun _ => ⟨v, hv, ?_⟩⟩
          rw [hs]
          simp [record]
        · rw [techCommandSequence_discovery_failed c x data_len p_data v s hdeact hdisc]
            at hs
          rw [hs] at hresp
          simp [record, responses, responses_sequenceEvents] at hresp
          obtain ⟨_, _, hp⟩ := hresp
          subst hp
          exact ⟨Or.inr rfl, fun _ => by rw [hs]; rfl, fun hp => absurd hp.symm hne⟩
      · rw [techCommandSequence_deactivate_failed c x data_len p_data v s hdeact] at hs
        rw [hs] at hresp
        simp [record, responses] at hresp
        obtain ⟨_, _, hp⟩ := hresp
        subst hp
        exact ⟨Or.inr rfl, fun _ => by rw [hs]; rfl, fun hp => absurd hp.symm hne⟩

/-- Witness for C12: scenario B answers FAIL and leaves observe mode on. -/
theorem toggle_all_or_nothing_witness :
    ([0x03] = [sampleConstants.NCI_RSP_OK % 256] ∨
      [0x03] = [sampleConstants.NCI_RSP_FAIL % 256]) ∧
    ([0x03] = [sampleConstants.NCI_RSP_FAIL % 256] →
      (⟨true, sequenceEvents sampleConstants scenarioB 5 disableTechBuffer 0 ++
        [Event.vendorSpecificCallback 0x0C 0x05 [0x03]]⟩ : HalState).bIsObserveModeEnabled =
        enabledState.bIsObserveModeEnabled) ∧
    ([0x03] = [sampleConstants.NCI_RSP_OK % 256] →
      ∃ v, readByte disableTechBuffer sampleConstants.NCI_MSG_INDEX_FEATURE_VALUE = some v ∧
        (⟨true, sequenceEvents sampleConstants scenarioB 5 disableTechBuffer 0 ++
          [Event.vendorSpecificCallback 0x0C 0x05 [0x03]]⟩ : HalState).bIsObserveModeEnabled =
          (if Handler.observeModeTechCommand = Handler.observeMode then (v != 0)
           else techToggleIntent sampleConstants v)) :=
  toggle_all_or_nothing Handler.observeModeTechCommand sampleConstants scenarioB 5
    disableTechBuffer enabledState
    ⟨true, sequenceEvents sampleConstants scenarioB 5 disableTechBuffer 0 ++
      [Event.vendorSpecificCallback 0x0C 0x05 [0x03]]⟩ 2 0x0C 0x05 [0x03]
    (Or.inr rfl) (by decide) rfl rfl

/-! ## C13 and C14: the return value -/

/-- `handleObserveModeTechCommand` returns the length byte whenever the
buffer holds the bytes it reads. -/
theorem techCommand_returns (c : NciConstants) (x : Externals) (data_len : Nat)
    (p_data : List Nat) (s : HalState) (oid opcode len : Nat)
    (hv : x.isObserveModeSupported = true →
      ∃ v, readByte p_data c.NCI_MSG_INDEX_FEATURE_VALUE = some v)
    (hoid : readByte p_data c.NCI_OID_INDEX = some oid)
    (hop : readByte p_data c.NCI_MSG_INDEX_FOR_FEATURE = some opcode)
    (hlen : readByte p_data c.NCI_MSG_LEN_INDEX = some len) :
    ∃ s1, handleObserveModeTechCommand c x data_len p_data s = some ((len : Int), s1) := by
  cases hsup : x.isObserveModeSupported
  · exact ⟨_, techCommand_eq_of_rejected c x data_len p_data s oid opcode len
      (Or.inl hsup) hoid hop hlen⟩
  · obtain ⟨v, hfv⟩ := hv hsup
    cases hrec : isRecognizedToken c v
    · exact ⟨_, techCommand_eq_of_rejected c x data_len p_data s oid opcode len
        (Or.inr ⟨v, hfv, hrec⟩) hoid hop hlen⟩
    · exact ⟨_, techCommand_eq_of_recognized c x data_len p_data s v oid opcode len
        hsup hfv hrec hoid hop hlen⟩

/-- Result of `handleObserveMode` on an accepted buffer with capability. -/
theorem handleObserveMode_eq_of_supported (c : NciConstants) (x : Externals)
    (data_len : Nat) (p_data : List Nat) (s : HalState) (v oid opcode len : Nat)
    (hlength : 4 < data_len)
    (hsup : x.isObserveModeSupported = true)
    (hv : readByte p_data c.NCI_MSG_INDEX_FEATURE_VALUE = some v)
    (hoid : readByte p_data c.NCI_OID_INDEX = some oid)
    (hop : readByte p_data c.NCI_MSG_INDEX_FOR_FEATURE = some opcode)
    (hlen : readByte p_data c.NCI_MSG_LEN_INDEX = some len) :
    handleObserveMode c x data_len p_data s =
      some ((len : Int),
        record (Event.vendorSpecificCallback oid opcode [c.NCI_RSP_OK % 256])
          (setObserveModeFlag (v != 0) s)) := by
  have hnle : ¬ data_len ≤ 4 := Nat.not_le.mpr hlength
  simp [handleObserveMode, hnle, hsup, hv, hoid, hop, hlen]

/-- Result of `handleObserveMode` on an accepted buffer without capability. -/
theorem handleObserveMode_eq_of_unsupported (c : NciConstants) (x : Externals)
    (data_len : Nat) (p_data : List Nat) (s : HalState) (oid opcode len : Nat)
    (hlength : 4 < data_len)
    (hsup : x.isObserveModeSupported = false)
    (hoid : readByte p_data c.NCI_OID_INDEX = some oid)
    (hop : readByte p_data c.NCI_MSG_INDEX_FOR_FEATURE = some opcode)
    (hlen : readByte p_data c.NCI_MSG_LEN_INDEX = some len) :
    handleObserveMode c x data_len p_data s =
      some ((len : Int),
        record (Event.vendorSpecificCallback oid opcode [c.NCI_RSP_FAIL % 256]) s) := by
  have hnle : ¬ data_len ≤ 4 := Nat.not_le.mpr hlength
  simp [handleObserveMode, hnle, hsup, hoid, hop, hlen]

/-- Result of `handleGetObserveModeStatus` on an accepted buffer. -/
theorem handleGetObserveModeStatus_eq (c : NciConstants) (data_len : Nat)
    (p_data : List Nat) (s : HalState) (oid opcode len : Nat)
    (hlength : 4 ≤ data_len)
    (hoid : readByte p_data c.NCI_OID_INDEX = some oid)
    (hop : readByte p_data c.NCI_MSG_INDEX_FOR_FEATURE = some opcode)
    (hlen : readByte p_data c.NCI_MSG_LEN_INDEX = some len) :
    handleGetObserveModeStatus c data_len p_data s =
      some ((len : Int),
        record (Event.vendorSpecificCallback oid opcode
          [c.NCI_RSP_OK % 256, if s.bIsObserveModeEnabled then 0x01 else 0x00]) s) := by
  have hnlt : ¬ data_len < 4 := Nat.not_lt.mpr hlength
  simp [handleGetObserveModeStatus, hnlt, hoid, hop, hlen, isObserveModeEnabled]

/-- C13. The handlers do not return the number of bytes received. On the
status query `2F 0C 01 04` (4 bytes received) `handleGetObserveModeStatus`
returns 1; on 5-byte toggle commands `handleObserveMode` and
`handleObserveModeTechCommand` return 2. Whatever the values of the header
macros, no accepted command of 256 bytes or more has its length returned. -/
theorem handlers_return_length_byte_not_data_len :
    (handleGetObserveModeStatus sampleConstants 4 statusQueryBuffer initialState).map Prod.fst =
        some (1 : Int) ∧
      (handleObserveMode sampleConstants scenarioA 5 enableBuffer initialState).map Prod.fst =
        some (2 : Int) ∧
      (handleObserveModeTechCommand sampleConstants scenarioA 5 enableAllTechBuffer
        initialState).map Prod.fst = some (2 : Int) ∧
      (∀ (h : Handler) (c : NciConstants) (x : Externals) (data_len : Nat)
          (p_data : List Nat) (s s1 : HalState) (r : Int),
        256 ≤ data_len → runHandler h c x data_len p_data s = some (r, s1) →
          r ≠ (data_len : Int)) := by
  refine ⟨rfl, rfl, rfl, ?_⟩
  intro h c x data_len p_data s s1 r hbig hrun
  cases h with
  | observeMode =>
    rcases handleObserveMode_inv c x data_len p_data s s1 r hrun with
      ⟨hle, _, _⟩ | ⟨_, o, q, len, _, _, hlen, hr, _⟩
    · omega
    · have := readByte_lt p_data _ len hlen
      omega
  | observeModeTechCommand =>
    obtain ⟨o, q, len, _, _, hlen, hr, _⟩ := techCommand_inv c x data_len p_data s s1 r hrun
    have := readByte_lt p_data _ len hlen
    omega
  | getObserveModeStatus =>
    rcases handleGetObserveModeStatus_inv c data_len p_data s s1 r hrun with
      ⟨hlt, _, _⟩ | ⟨_, o, q, len, _, _, hlen, hr, _⟩
    · omega
    · have := readByte_lt p_data _ len hlen
      omega

/-- C14. Bytes-consumed return value. `handleObserveMode` returns 0 when the
declared length is at most 4 and `handleGetObserveModeStatus` returns 0 when
it is below 4. On a buffer that holds the bytes the handlers read, with
length byte `len` (a value below 256), `handleObserveMode` returns `len` when
the declared length is above 4, `handleGetObserveModeStatus` returns `len`
when it is at least 4, and `handleObserveModeTechCommand` returns `len` on
every branch: for every prior flag, capability value, feature-value byte and
send outcomes. -/
theorem bytes_consumed_return (c : NciConstants) (x : Externals) (data_len : Nat)
    (p_data : List Nat) (s : HalState) :
    (data_len ≤ 4 → handleObserveMode c x data_len p_data s = some ((0 : Int), s)) ∧
    (data_len < 4 → handleGetObserveModeStatus c data_len p_data s = some ((0 : Int), s)) ∧
    (∀ oid opcode len : Nat,
      (x.isObserveModeSupported = true →
        ∃ v, readByte p_data c.NCI_MSG_INDEX_FEATURE_VALUE = some v) →
      readByte p_data c.NCI_OID_INDEX = some oid →
      readByte p_data c.NCI_MSG_INDEX_FOR_FEATURE = some opcode →
      readByte p_data c.NCI_MSG_LEN_INDEX = some len →
      len < 256 ∧
      (4 < data_len →
        ∃ s1, handleObserveMode c x data_len p_data s = some ((len : Int), s1)) ∧
      (4 ≤ data_len →
        ∃ s1, handleGetObserveModeStatus c data_len p_data s = some ((len : Int), s1)) ∧
      (∃ s1, handleObserveModeTechCommand c x data_len p_data s = some ((len : Int), s1))) := by
  refine ⟨fun hle => by simp [handleObserveMode, hle],
    fun hlt => by simp [handleGetObserveModeStatus, hlt], ?_⟩
  intro oid opcode len hv hoid hop hlen
  refine ⟨readByte_lt p_data _ len hlen, ?_, ?_,
    techCommand_returns c x data_len p_data s oid opcode len hv hoid hop hlen⟩
  · intro hgt
    cases hsup : x.isObserveModeSupported
    · exact ⟨_, handleObserveMode_eq_of_unsupported c x data_len p_data s oid opcode len
        hgt hsup hoid hop hlen⟩
    · obtain ⟨v, hfv⟩ := hv hsup
      exact ⟨_, handleObserveMode_eq_of_supported c x data_len p_data s v oid opcode len
        hgt hsup hfv hoid hop hlen⟩
  · intro hge
    exact ⟨_, handleGetObserveModeStatus_eq c data_len p_data s oid opcode len
      hge hoid hop hlen⟩

/-- Witness for C14: on a 5-byte explicit-disable command with length byte 2
the tech-scoped toggle returns 2 although the RF deactivate command fails. -/
theorem bytes_consumed_return_witness :
    ∃ s1, handleObserveModeTechCommand sampleConstants scenarioDeactivateFails 5
      disableTechBuffer enabledState = some ((2 : Int), s1) :=
  ((bytes_consumed_return sampleConstants scenarioDeactivateFails 5 disableTechBuffer
    enabledState).2.2 0x0C 0x05 2 (fun _ => ⟨0x00, rfl⟩) rfl rfl rfl).2.2.2

/-! ## C15 and C16: the commands sent -/

/-- C15. Command trace of `handleObserveModeTechCommand` when validation
passes and the RF deactivate send succeeds, whatever the tech command and
the discovery command return. With the toggle intent true the commands sent
are, in order, the 4-byte RF deactivate command 21 06 01 00, the first
`data_len` bytes of the inbound buffer unmodified, and the builder's
reconfigured discovery command; with the intent false they are the RF
deactivate command and the builder's default discovery command, the tech
command being skipped. -/
theorem techCommand_command_trace (c : NciConstants) (x : Externals) (data_len : Nat)
    (p_data : List Nat) (s : HalState) (v oid opcode len : Nat)
    (hsup : x.isObserveModeSupported = true)
    (hv : readByte p_data c.NCI_MSG_INDEX_FEATURE_VALUE = some v)
    (htok : v = c.OBSERVE_MODE_TECH_COMMAND_SUPPORT_FLAG ∨
            v = c.OBSERVE_MODE_TECH_COMMAND_SUPPORT_FLAG_FOR_ALL_TECH ∨
            v = c.NCI_ANDROID_PASSIVE_OBSERVE_PARAM_DISABLE)
    (hoid : readByte p_data c.NCI_OID_INDEX = some oid)
    (hop : readByte p_data c.NCI_MSG_INDEX_FOR_FEATURE = some opcode)
    (hlen : readByte p_data c.NCI_MSG_LEN_INDEX = some len)
    (hdeact : x.rfDeactivateStatus = c.NFCSTATUS_SUCCESS) :
    ∃ s1, handleObserveModeTechCommand c x data_len p_data s = some ((len : Int), s1) ∧
      (techToggleIntent c v = true →
        sentCommands s1.log = sentCommands s.log ++
          [[0x21, 0x06, 0x01, 0x00], p_data.take data_len, x.reConfigRFDiscCmd] ∧
        builderCalls s1.log = builderCalls s.log ++ [Event.reConfigRFDiscCmd]) ∧
      (techToggleIntent c v = false →
        sentCommands s1.log = sentCommands s.log ++
          [[0x21, 0x06, 0x01, 0x00], x.getDiscoveryCommand] ∧
        builderCalls s1.log = builderCalls s.log ++ [Event.getDiscoveryCommand]) := by
  have hrec : isRecognizedToken c v = true := (isRecognizedToken_iff c v).2 htok
  refine ⟨_, techCommand_eq_of_recognized c x data_len p_data s v oid opcode len
    hsup hv hrec hoid hop hlen, ?_, ?_⟩
  · intro hf
    by_cases hdisc : x.rfDiscoveryStatus = c.NFCSTATUS_SUCCESS
    · rw [techCommandSequence_succeeded c x data_len p_data v s hdeact hdisc]
      simp [record, sequenceEvents, hf, sentCommands, builderCalls, rf_deactivate_cmd]
    · rw [techCommandSequence_discovery_failed c x data_len p_data v s hdeact hdisc]
      simp [record, sequenceEvents, hf, sentCommands, builderCalls, rf_deactivate_cmd]
  · intro hf
    by_cases hdisc : x.rfDiscoveryStatus = c.NFCSTATUS_SUCCESS
    · rw [techCommandSequence_succeeded c x data_len p_data v s hdeact hdisc]
      simp [record, sequenceEvents, hf, sentCommands, builderCalls, rf_deactivate_cmd]
    · rw [techCommandSequence_discovery_failed c x data_len p_data v s hdeact hdisc]
      simp [record, sequenceEvents, hf, sentCommands, builderCalls, rf_deactivate_cmd]

/-- Witness for C15: in scenario A the tech command fails and the
reconfigured discovery command is sent all the same. -/
theorem techCommand_command_trace_witness :
    ∃ s1, handleObserveModeTechCommand sampleConstants scenarioA 5 enableAllTechBuffer
        initialState = some ((2 : Int), s1) ∧
      sentCommands s1.log =
        [[0x21, 0x06, 0x01, 0x00], [0x2F, 0x0C, 0x02, 0x05, 0x07],
         [0x21, 0x03, 0x03, 0x01, 0x80, 0x01]] := by
  obtain ⟨s1, h, hon, _⟩ :=
    techCommand_command_trace sampleConstants scenarioA 5 enableAllTechBuffer initialState
      0x07 0x0C 0x05 2 rfl rfl (by decide) rfl rfl rfl rfl
  exact ⟨s1, h, (hon (by decide)).1⟩

/-- The status returned by the tech command changes nothing in the sequence
but the status recorded with that send. -/
theorem techCommandSequence_nciStatus (c : NciConstants) (x : Externals) (n : Nat)
    (data_len : Nat) (p_data : List Nat) (v : Nat) (s : HalState) :
    (techCommandSequence c { x with nciStatus := n } data_len p_data v s).1 =
        (techCommandSequence c x data_len p_data v s).1 ∧
      (techCommandSequence c { x with nciStatus := n } data_len p_data v s).2.bIsObserveModeEnabled =
        (techCommandSequence c x data_len p_data v s).2.bIsObserveModeEnabled ∧
      responses (techCommandSequence c { x with nciStatus := n } data_len p_data v s).2.log =
        responses (techCommandSequence c x data_len p_data v s).2.log ∧
      sentCommands (techCommandSequence c { x with nciStatus := n } data_len p_data v s).2.log =
        sentCommands (techCommandSequence c x data_len p_data v s).2.log ∧
      builderCalls (techCommandSequence c { x with nciStatus := n } data_len p_data v s).2.log =
        builderCalls (techCommandSequence c x data_len p_data v s).2.log := by
  simp only [techCommandSequence]
  split_ifs <;>
    simp [record, setObserveModeFlag, responses, sentCommands, builderCalls]

/-- C16. The best-effort step is non-interfering: for every input, prior
state, capability value and outcomes of the deactivate and discovery sends,
two runs of `handleObserveModeTechCommand` that differ only in the status
returned by the tech command either both read past the buffer or both
return, with the same return value, the same final flag, the same emitted
responses and the same sequence of commands sent and builder calls. -/
theorem techCommand_nciStatus_noninterference (c : NciConstants) (x : Externals) (n : Nat)
    (data_len : Nat) (p_data : List Nat) (s : HalState) :
    observation (handleObserveModeTechCommand c { x with nciStatus := n } data_len p_data s) =
      observation (handleObserveModeTechCommand c x data_len p_data s) := by
  unfold observation handleObserveModeTechCommand
  cases hsup : x.isObserveModeSupported
  · simp [hsup]
  · cases hfv : readByte p_data c.NCI_MSG_INDEX_FEATURE_VALUE with
    | none => simp [hsup, hfv]
    | some v =>
      cases hrec : isRecognizedToken c v
      · simp [hsup, hfv, hrec]
      · obtain ⟨h1, h2, h3, h4, h5⟩ :=
          techCommandSequence_nciStatus c x n data_len p_data v s
        simp only [hsup] at h1 h2 h3 h4 h5
        cases hoid : readByte p_data c.NCI_OID_INDEX with
        | none => simp [hsup, hfv, hrec, hoid]
        | some oid =>
          cases hop : readByte p_data c.NCI_MSG_INDEX_FOR_FEATURE with
          | none => simp [hsup, hfv, hrec, hoid, hop]
          | some opcode =>
            cases hlen : readByte p_data c.NCI_MSG_LEN_INDEX with
            | none => simp [hsup, hfv, hrec, hoid, hop, hlen]
            | some len =>
              simp [hsup, hfv, hrec, hoid, hop, hlen, record, h1, h2, h3, h4, h5]

/-! ## C17 to C19: the status query -/

/-- C17. `handleGetObserveModeStatus`, malformed boundary. For every input,
the empty buffer included: when the declared length is below 4 the handler
returns 0 and leaves the state (flag and log) as it was, without reading the
buffer; every returning run has emitted a response if and only if the
declared length is at least 4; and when the declared length is at least 4 and
the buffer holds the bytes the handler reads, the handler returns and emits
exactly one response with the two-byte payload, the flag unchanged. A query
of length exactly 4 is thus answered, whereas `handleObserveMode` drops
length exactly 4. -/
theorem status_query_boundary (c : NciConstants) (x : Externals) (data_len : Nat)
    (p_data : List Nat) (s : HalState) :
    (data_len < 4 →
      handleGetObserveModeStatus c data_len p_data s = some ((0 : Int), s)) ∧
    (∀ (r : Int) (s1 : HalState),
      handleGetObserveModeStatus c data_len p_data s = some (r, s1) →
      (responses s1.log ≠ responses s.log ↔ 4 ≤ data_len)) ∧
    (∀ oid opcode len : Nat, 4 ≤ data_len →
      readByte p_data c.NCI_OID_INDEX = some oid →
      readByte p_data c.NCI_MSG_INDEX_FOR_FEATURE = some opcode →
      readByte p_data c.NCI_MSG_LEN_INDEX = some len →
      ∃ s1, handleGetObserveModeStatus c data_len p_data s = some ((len : Int), s1) ∧
        responses s1.log = responses s.log ++
          [(oid, opcode,
            [c.NCI_RSP_OK % 256, if s.bIsObserveModeEnabled then 0x01 else 0x00])] ∧
        s1.bIsObserveModeEnabled = s.bIsObserveModeEnabled) ∧
    (data_len = 4 → handleObserveMode c x data_len p_data s = some ((0 : Int), s)) := by
  refine ⟨?_, ?_, ?_, ?_⟩
  · intro hlt
    simp [handleGetObserveModeStatus, hlt]
  · intro r s1 hrun
    rcases handleGetObserveModeStatus_inv c data_len p_data s s1 r hrun with
      ⟨hlt, _, hs⟩ | ⟨hge, oid, opcode, len, _, _, _, _, hs⟩
    · rw [hs]
      constructor
      · intro hne
        exact absurd rfl hne
      · intro hge
        omega
    · rw [hs]
      simp [record, responses, hge]
  · intro oid opcode len hge hoid hop hlen
    refine ⟨_, handleGetObserveModeStatus_eq c data_len p_data s oid opcode len
      hge hoid hop hlen, ?_, rfl⟩
    simp [record, responses]
  · intro h4
    simp [handleObserveMode, h4]

/-- Witness for C17: with an empty buffer and declared lengths 0 and 3 the
query is dropped; the 4-byte query `2F 0C 01 04` is answered, and the simple
toggle drops the same declared length. -/
theorem status_query_boundary_witness :
    handleGetObserveModeStatus sampleConstants 0 [] enabledState =
        some ((0 : Int), enabledState) ∧
      handleGetObserveModeStatus sampleConstants 3 [0x2F, 0x0C, 0x00] enabledState =
        some ((0 : Int), enabledState) ∧
      (∃ s1, handleGetObserveModeStatus sampleConstants 4 statusQueryBuffer initialState =
          some ((1 : Int), s1) ∧
        responses s1.log = [(0x0C, 0x04, [0x00, 0x00])] ∧
        s1.bIsObserveModeEnabled = false) ∧
      handleObserveMode sampleConstants scenarioA 4 statusQueryBuffer initialState =
        some ((0 : Int), initialState) :=
  ⟨(status_query_boundary sampleConstants scenarioA 0 [] enabledState).1 (by decide),
   (status_query_boundary sampleConstants scenarioA 3 [0x2F, 0x0C, 0x00] enabledState).1
     (by decide),
   (status_query_boundary sampleConstants scenarioA 4 statusQueryBuffer initialState).2.2.1
     0x0C 0x04 1 (by decide) rfl rfl rfl,
   (status_query_boundary sampleConstants scenarioA 4 statusQueryBuffer initialState).2.2.2
     rfl⟩

/-- C18. Initial state: the flag is off at process start, so a validly framed
status query issued before any toggle returns and emits exactly one response,
with the payload OK, 0x00. -/
theorem initial_status_query (c : NciConstants) (data_len : Nat)
    (p_data : List Nat) (oid opcode len : Nat)
    (hlength : 4 ≤ data_len)
    (hoid : readByte p_data c.NCI_OID_INDEX = some oid)
    (hop : readByte p_data c.NCI_MSG_INDEX_FOR_FEATURE = some opcode)
    (hlen : readByte p_data c.NCI_MSG_LEN_INDEX = some len) :
    initialState.bIsObserveModeEnabled = false ∧
    handleGetObserveModeStatus c data_len p_data initialState =
      some ((len : Int),
        ⟨false, [Event.vendorSpecificCallback oid opcode [c.NCI_RSP_OK % 256, 0x00]]⟩) := by
  refine ⟨rfl, ?_⟩
  rw [handleGetObserveModeStatus_eq c data_len p_data initialState oid opcode len
    hlength hoid hop hlen]
  rfl

/-- Witness for C18: the query `2F 0C 01 04` at process start. -/
theorem initial_status_query_witness :
    initialState.bIsObserveModeEnabled = false ∧
    handleGetObserveModeStatus sampleConstants 4 statusQueryBuffer initialState =
      some ((1 : Int), ⟨false, [Event.vendorSpecificCallback 0x0C 0x04 [0x00, 0x00]]⟩) :=
  initial_status_query sampleConstants 4 statusQueryBuffer 0x0C 0x04 1 (by decide) rfl rfl rfl

/-- C19. Toggle-then-query round trip. From every prior state, after a toggle
that answers OK (`handleObserveMode` with capability on a buffer longer than
4, or `handleObserveModeTechCommand` on a recognised token with the
deactivate and discovery sends successful), a validly framed status query
emits the payload OK, 0x01 exactly when the requested state was enable (a
non-zero feature-value byte for the simple toggle, an enable token for the
tech-scoped toggle) and OK, 0x00 otherwise; a second status query emits the
same payload again. -/
theorem toggle_then_query (c : NciConstants) (x : Externals) (n1 : Nat) (p1 : List Nat)
    (n2 : Nat) (p2 : List Nat) (s : HalState) (v oid1 opcode1 len1 oid2 opcode2 len2 : Nat)
    (hsup : x.isObserveModeSupported = true)
    (hv : readByte p1 c.NCI_MSG_INDEX_FEATURE_VALUE = some v)
    (hoid1 : readByte p1 c.NCI_OID_INDEX = some oid1)
    (hop1 : readByte p1 c.NCI_MSG_INDEX_FOR_FEATURE = some opcode1)
    (hlen1 : readByte p1 c.NCI_MSG_LEN_INDEX = some len1)
    (hn2 : 4 ≤ n2)
    (hoid2 : readByte p2 c.NCI_OID_INDEX = some oid2)
    (hop2 : readByte p2 c.NCI_MSG_INDEX_FOR_FEATURE = some opcode2)
    (hlen2 : readByte p2 c.NCI_MSG_LEN_INDEX = some len2) :
    (4 < n1 →
      ∃ s1 s2 s3, handleObserveMode c x n1 p1 s = some ((len1 : Int), s1) ∧
        responses s1.log = responses s.log ++ [(oid1, opcode1, [c.NCI_RSP_OK % 256])] ∧
        handleGetObserveModeStatus c n2 p2 s1 = some ((len2 : Int), s2) ∧
        responses s2.log = responses s1.log ++
          [(oid2, opcode2, [c.NCI_RSP_OK % 256, if v ≠ 0 then 0x01 else 0x00])] ∧
        handleGetObserveModeStatus c n2 p2 s2 = some ((len2 : Int), s3) ∧
        responses s3.log = responses s2.log ++
          [(oid2, opcode2, [c.NCI_RSP_OK % 256, if v ≠ 0 then 0x01 else 0x00])]) ∧
    ((v = c.OBSERVE_MODE_TECH_COMMAND_SUPPORT_FLAG ∨
        v = c.OBSERVE_MODE_TECH_COMMAND_SUPPORT_FLAG_FOR_ALL_TECH ∨
        v = c.NCI_ANDROID_PASSIVE_OBSERVE_PARAM_DISABLE) →
      x.rfDeactivateStatus = c.NFCSTATUS_SUCCESS →
      x.rfDiscoveryStatus = c.NFCSTATUS_SUCCESS →
      ∃ s1 s2 s3, handleObserveModeTechCommand c x n1 p1 s = some ((len1 : Int), s1) ∧
        responses s1.log = responses s.log ++ [(oid1, opcode1, [c.NCI_RSP_OK % 256])] ∧
        handleGetObserveModeStatus c n2 p2 s1 = some ((len2 : Int), s2) ∧
        responses s2.log = responses s1.log ++
          [(oid2, opcode2, [c.NCI_RSP_OK % 256,
            if v = c.OBSERVE_MODE_TECH_COMMAND_SUPPORT_FLAG ∨
               v = c.OBSERVE_MODE_TECH_COMMAND_SUPPORT_FLAG_FOR_ALL_TECH
            then 0x01 else 0x00])] ∧
        handleGetObserveModeStatus c n2 p2 s2 = some ((len2 : Int), s3) ∧
        responses s3.log = responses s2.log ++
          [(oid2, opcode2, [c.NCI_RSP_OK % 256,
            if v = c.OBSERVE_MODE_TECH_COMMAND_SUPPORT_FLAG ∨
               v = c.OBSERVE_MODE_TECH_COMMAND_SUPPORT_FLAG_FOR_ALL_TECH
            then 0x01 else 0x00])]) := by
  constructor
  · intro hn1
    refine ⟨_, _, _,
      handleObserveMode_eq_of_supported c x n1 p1 s v oid1 opcode1 len1 hn1 hsup hv
        hoid1 hop1 hlen1, ?_,
      handleGetObserveModeStatus_eq c n2 p2 _ oid2 opcode2 len2 hn2 hoid2 hop2 hlen2, ?_,
      handleGetObserveModeStatus_eq c n2 p2 _ oid2 opcode2 len2 hn2 hoid2 hop2 hlen2, ?_⟩
    · simp [record, responses, setObserveModeFlag]
    · by_cases h0 : v = 0 <;> simp [record, responses, setObserveModeFlag, h0]
    · by_cases h0 : v = 0 <;> simp [record, responses, setObserveModeFlag, h0]
  · intro htok hdeact hdisc
    have hrec : isRecognizedToken c v = true := (isRecognizedToken_iff c v).2 htok
    have hrun := techCommand_eq_of_recognized c x n1 p1 s v oid1 opcode1 len1
      hsup hv hrec hoid1 hop1 hlen1
    rw [techCommandSequence_succeeded c x n1 p1 v s hdeact hdisc] at hrun
    refine ⟨_, _, _, hrun, ?_,
      handleGetObserveModeStatus_eq c n2 p2 _ oid2 opcode2 len2 hn2 hoid2 hop2 hlen2, ?_,
      handleGetObserveModeStatus_eq c n2 p2 _ oid2 opcode2 len2 hn2 hoid2 hop2 hlen2, ?_⟩
    · simp [record, responses, responses_sequenceEvents]
    · simp [record, responses, techToggleIntent_iff]
    · simp [record, responses, techToggleIntent_iff]

/-- Witness for C19: an enable by the simple toggle followed by two status
queries, each answered OK, 0x01. -/
theorem toggle_then_query_witness :
    ∃ s1 s2 s3, handleObserveMode sampleConstants scenarioA 5 enableBuffer initialState =
        some ((2 : Int), s1) ∧
      handleGetObserveModeStatus sampleConstants 4 statusQueryBuffer s1 =
        some ((1 : Int), s2) ∧
      responses s2.log = responses s1.log ++ [(0x0C, 0x04, [0x00, 0x01])] ∧
      handleGetObserveModeStatus sampleConstants 4 statusQueryBuffer s2 =
        some ((1 : Int), s3) ∧
      responses s3.log = responses s2.log ++ [(0x0C, 0x04, [0x00, 0x01])] := by
  obtain ⟨s1, s2, s3, h1, _, h2, hr2, h3, hr3⟩ :=
    (toggle_then_query sampleConstants scenarioA 5 enableBuffer 4 statusQueryBuffer
      initialState 0x01 0x0C 0x02 2 0x0C 0x04 1 rfl rfl rfl rfl rfl (by decide)
      rfl rfl rfl).1 (by decide)
  exact ⟨s1, s2, s3, h1, h2, hr2, h3, hr3⟩

/-! ## C20: the prior flag -/

/-- The prior flag changes neither the status nor the log of the sequence. -/
theorem techCommandSequence_prior_flag (c : NciConstants) (x : Externals) (data_len : Nat)
    (p_data : List Nat) (v : Nat) (l : List Event) (b1 b2 : Bool) :
    (techCommandSequence c x data_len p_data v ⟨b1, l⟩).1 =
        (techCommandSequence c x data_len p_data v ⟨b2, l⟩).1 ∧
      (techCommandSequence c x data_len p_data v ⟨b1, l⟩).2.log =
        (techCommandSequence c x data_len p_data v ⟨b2, l⟩).2.log := by
  simp only [techCommandSequence]
  split_ifs <;> simp [record, setObserveModeFlag]

/-- The commands among the events of the sequence. -/
theorem sentCommands_sequenceEvents (c : NciConstants) (x : Externals) (data_len : Nat)
    (p_data : List Nat) (v : Nat) :
    sentCommands (sequenceEvents c x data_len p_data v) =
      if techToggleIntent c v then
        [[0x21, 0x06, 0x01, 0x00], p_data.take data_len, x.reConfigRFDiscCmd]
      else
        [[0x21, 0x06, 0x01, 0x00], x.getDiscoveryCommand] := by
  cases hf : techToggleIntent c v <;>
    simp [sequenceEvents, hf, sentCommands, rf_deactivate_cmd]

/-- Once the RF deactivate command succeeded the sequence logs
`sequenceEvents`, whatever the discovery command returns. -/
theorem techCommandSequence_log_of_deactivated (c : NciConstants) (x : Externals)
    (data_len : Nat) (p_data : List Nat) (v : Nat) (s : HalState)
    (hdeact : x.rfDeactivateStatus = c.NFCSTATUS_SUCCESS) :
    (techCommandSequence c x data_len p_data v s).2.log =
      s.log ++ sequenceEvents c x data_len p_data v := by
  by_cases hdisc : x.rfDiscoveryStatus = c.NFCSTATUS_SUCCESS
  · rw [techCommandSequence_succeeded c x data_len p_data v s hdeact hdisc]
  · rw [techCommandSequence_discovery_failed c x data_len p_data v s hdeact hdisc]

/-- A returning run of `handleObserveModeTechCommand` either keeps the flag
and answers FAIL, or took the committing path. -/
theorem techCommand_final_flag (c : NciConstants) (x : Externals) (data_len : Nat)
    (p_data : List Nat) (s s1 : HalState) (r : Int)
    (h : handleObserveModeTechCommand c x data_len p_data s = some (r, s1)) :
    (s1.bIsObserveModeEnabled = s.bIsObserveModeEnabled ∧
      ∃ oid opcode, responses s1.log =
        responses s.log ++ [(oid, opcode, [c.NCI_RSP_FAIL % 256])]) ∨
    (∃ v, x.isObserveModeSupported = true ∧
      readByte p_data c.NCI_MSG_INDEX_FEATURE_VALUE = some v ∧
      isRecognizedToken c v = true ∧
      x.rfDeactivateStatus = c.NFCSTATUS_SUCCESS ∧
      x.rfDiscoveryStatus = c.NFCSTATUS_SUCCESS ∧
      s1.bIsObserveModeEnabled = techToggleIntent c v) := by
  obtain ⟨oid, opcode, len, _, _, _, _, hcase⟩ := techCommand_inv c x data_len p_data s s1 r h
  rcases hcase with ⟨_, hs⟩ | ⟨hsup, v, hv, hrec, hs⟩
  · left
    rw [hs]
    exact ⟨rfl, oid, opcode, by simp [record, responses]⟩
  · by_cases hdeact : x.rfDeactivateStatus = c.NFCSTATUS_SUCCESS
    · by_cases hdisc : x.rfDiscoveryStatus = c.NFCSTATUS_SUCCESS
      · right
        rw [techCommandSequence_succeeded c x data_len p_data v s hdeact hdisc] at hs
        exact ⟨v, hsup, hv, hrec, hdeact, hdisc, by rw [hs]; rfl⟩
      · left
        rw [techCommandSequence_discovery_failed c x data_len p_data v s hdeact hdisc] at hs
        rw [hs]
        exact ⟨rfl, oid, opcode, by simp [record, responses, responses_sequenceEvents]⟩
    · left
      rw [techCommandSequence_deactivate_failed c x data_len p_data v s hdeact] at hs
      rw [hs]
      exact ⟨rfl, oid, opcode, by simp [record, responses]⟩

/-- On the committing path every returning run of
`handleObserveModeTechCommand` ends with the flag equal to the intent. -/
theorem techCommand_committed_flag (c : NciConstants) (x : Externals) (data_len : Nat)
    (p_data : List Nat) (s s1 : HalState) (r : Int) (v : Nat)
    (hsup : x.isObserveModeSupported = true)
    (hv : readByte p_data c.NCI_MSG_INDEX_FEATURE_VALUE = some v)
    (hrec : isRecognizedToken c v = true)
    (hdeact : x.rfDeactivateStatus = c.NFCSTATUS_SUCCESS)
    (hdisc : x.rfDiscoveryStatus = c.NFCSTATUS_SUCCESS)
    (h : handleObserveModeTechCommand c x data_len p_data s = some (r, s1)) :
    s1.bIsObserveModeEnabled = techToggleIntent c v := by
  obtain ⟨oid, opcode, len, _, _, _, _, hcase⟩ := techCommand_inv c x data_len p_data s s1 r h
  rcases hcase with ⟨hrej | ⟨w, hw, hrecw⟩, _⟩ | ⟨_, w, hw, _, hs⟩
  · rw [hsup] at hrej
    cases hrej
  · rw [hv] at hw
    cases hw
    rw [hrec] at hrecw
    cases hrecw
  · rw [hv] at hw
    cases hw
    rw [techCommandSequence_succeeded c x data_len p_data v s hdeact hdisc] at hs
    rw [hs]
    rfl

/-- Counterexample to C20 as stated: `handleObserveMode` with a declared
length of 4 drops the command, so the runs from flag on and from flag off
end with different flags although no response at all, hence no FAIL, was
emitted. -/
theorem prior_flag_survives_dropped_toggle :
    handleObserveMode sampleConstants scenarioA 4 enableBuffer ⟨true, []⟩ =
        some ((0 : Int), ⟨true, []⟩) ∧
      handleObserveMode sampleConstants scenarioA 4 enableBuffer ⟨false, []⟩ =
        some ((0 : Int), ⟨false, []⟩) ∧
      (⟨true, []⟩ : HalState).bIsObserveModeEnabled ≠
        (⟨false, []⟩ : HalState).bIsObserveModeEnabled ∧
      responses (⟨true, []⟩ : HalState).log = [] := by
  refine ⟨rfl, rfl, by decide, rfl⟩

/-- C20 (amended). The prior flag does not influence the toggles: for every
input, capability value and send outcomes, the runs of
`handleObserveModeTechCommand`, and likewise of `handleObserveMode`, started
from flag `b1` and from flag `b2` with the same log either both read past the
buffer or both return the same value and the same log, so the same commands
are sent and the same response is emitted. When the final flags differ, each
run kept its prior flag, and either the response is FAIL or, for
`handleObserveMode` only, the declared length is at most 4 and the command
was dropped without a response. In particular a request whose intent equals
the prior flag still performs the deactivate / discovery sequence. -/
theorem toggle_prior_flag_noninterference (c : NciConstants) (x : Externals)
    (data_len : Nat) (p_data : List Nat) (l : List Event) (b1 b2 : Bool) :
    returnAndLog (handleObserveModeTechCommand c x data_len p_data ⟨b1, l⟩) =
      returnAndLog (handleObserveModeTechCommand c x data_len p_data ⟨b2, l⟩) ∧
    returnAndLog (handleObserveMode c x data_len p_data ⟨b1, l⟩) =
      returnAndLog (handleObserveMode c x data_len p_data ⟨b2, l⟩) ∧
    (∀ (r1 r2 : Int) (s1 s2 : HalState),
      handleObserveModeTechCommand c x data_len p_data ⟨b1, l⟩ = some (r1, s1) →
      handleObserveModeTechCommand c x data_len p_data ⟨b2, l⟩ = some (r2, s2) →
      s1.bIsObserveModeEnabled ≠ s2.bIsObserveModeEnabled →
      s1.bIsObserveModeEnabled = b1 ∧ s2.bIsObserveModeEnabled = b2 ∧
      ∃ oid opcode, responses s1.log = responses l ++ [(oid, opcode, [c.NCI_RSP_FAIL % 256])]) ∧
    (∀ (r1 r2 : Int) (s1 s2 : HalState),
      handleObserveMode c x data_len p_data ⟨b1, l⟩ = some (r1, s1) →
      handleObserveMode c x data_len p_data ⟨b2, l⟩ = some (r2, s2) →
      s1.bIsObserveModeEnabled ≠ s2.bIsObserveModeEnabled →
      s1.bIsObserveModeEnabled = b1 ∧ s2.bIsObserveModeEnabled = b2 ∧
      ((data_len ≤ 4 ∧ s1.log = l) ∨
       (4 < data_len ∧
        ∃ oid opcode, responses s1.log =
          responses l ++ [(oid, opcode, [c.NCI_RSP_FAIL % 256])]))) ∧
    (∀ v oid opcode len : Nat,
      x.isObserveModeSupported = true →
      readByte p_data c.NCI_MSG_INDEX_FEATURE_VALUE = some v →
      isRecognizedToken c v = true →
      readByte p_data c.NCI_OID_INDEX = some oid →
      readByte p_data c.NCI_MSG_INDEX_FOR_FEATURE = some opcode →
      readByte p_data c.NCI_MSG_LEN_INDEX = some len →
      x.rfDeactivateStatus = c.NFCSTATUS_SUCCESS →
      ∃ s1, handleObserveModeTechCommand c x data_len p_data ⟨techToggleIntent c v, l⟩ =
          some ((len : Int), s1) ∧
        sentCommands s1.log = sentCommands l ++
          (if techToggleIntent c v then
            [[0x21, 0x06, 0x01, 0x00], p_data.take data_len, x.reConfigRFDiscCmd]
           else
            [[0x21, 0x06, 0x01, 0x00], x.getDiscoveryCommand])) := by
  refine ⟨?_, ?_, ?_, ?_, ?_⟩
  · unfold returnAndLog handleObserveModeTechCommand
    cases hsup : x.isObserveModeSupported
    · simp [hsup, record]
    · cases hfv : readByte p_data c.NCI_MSG_INDEX_FEATURE_VALUE with
      | none => simp [hsup, hfv]
      | some v =>
        cases hrec : isRecognizedToken c v
        · simp [hsup, hfv, hrec, record]
        · obtain ⟨h1, h2⟩ := techCommandSequence_prior_flag c x data_len p_data v l b1 b2
          simp [hsup, hfv, hrec, record, h1, h2]
  · unfold returnAndLog handleObserveMode
    by_cases hle : data_len ≤ 4
    · simp [hle]
    · cases hsup : x.isObserveModeSupported
      · simp [hle, hsup, record]
      · cases hfv : readByte p_data c.NCI_MSG_INDEX_FEATURE_VALUE with
        | none => simp [hle, hsup, hfv]
        | some v => simp [hle, hsup, hfv, record, setObserveModeFlag]
  · intro r1 r2 s1 s2 hrun1 hrun2 hne
    rcases techCommand_final_flag c x data_len p_data _ s1 r1 hrun1 with
      ⟨hk1, hresp1⟩ | ⟨v, hsup, hv, hrec, hdeact, hdisc, hset1⟩
    · rcases techCommand_final_flag c x data_len p_data _ s2 r2 hrun2 with
        ⟨hk2, _⟩ | ⟨v, hsup, hv, hrec, hdeact, hdisc, hset2⟩
      · exact ⟨hk1, hk2, hresp1⟩
      · have hset1 := techCommand_committed_flag c x data_len p_data _ s1 r1 v
          hsup hv hrec hdeact hdisc hrun1
        exact absurd (hset1.trans hset2.symm) hne
    · have hset2 := techCommand_committed_flag c x data_len p_data _ s2 r2 v
        hsup hv hrec hdeact hdisc hrun2
      exact absurd (hset1.trans hset2.symm) hne
  · intro r1 r2 s1 s2 hrun1 hrun2 hne
    rcases handleObserveMode_inv c x data_len p_data _ s1 r1 hrun1 with
      ⟨hle1, _, hs1⟩ | ⟨hgt1, o1, q1, len1, _, _, _, _, ⟨hsup1, hs1⟩ | ⟨hsup1, v1, hv1, hs1⟩⟩ <;>
    rcases handleObserveMode_inv c x data_len p_data _ s2 r2 hrun2 with
      ⟨hle2, _, hs2⟩ | ⟨hgt2, o2, q2, len2, _, _, _, _, ⟨hsup2, hs2⟩ | ⟨hsup2, v2, hv2, hs2⟩⟩
    · exact ⟨by rw [hs1], by rw [hs2], Or.inl ⟨hle1, by rw [hs1]⟩⟩
    · omega
    · omega
    · omega
    · refine ⟨by rw [hs1]; rfl, by rw [hs2]; rfl, Or.inr ⟨hgt1, o1, q1, ?_⟩⟩
      rw [hs1]
      simp [record, responses]
    · rw [hsup1] at hsup2
      cases hsup2
    · omega
    · rw [hsup1] at hsup2
      cases hsup2
    · rw [hv1] at hv2
      cases hv2
      exact absurd (by rw [hs1, hs2]; rfl) hne
  · intro v oid opcode len hsup hv hrec hoid hop hlen hdeact
    refine ⟨_, techCommand_eq_of_recognized c x data_len p_data _ v oid opcode len
      hsup hv hrec hoid hop hlen, ?_⟩
    simp only [record, sentCommands_append,
      techCommandSequence_log_of_deactivated c x data_len p_data v _ hdeact,
      sentCommands_sequenceEvents]
    simp [sentCommands]

/-- Witness for C20 (amended): an explicit-disable request issued while
observe mode is already off still sends the RF deactivate command and the
default discovery command. -/
theorem toggle_prior_flag_noninterference_witness :
    ∃ s1, handleObserveModeTechCommand sampleConstants scenarioA 5 disableTechBuffer
        ⟨false, []⟩ = some ((2 : Int), s1) ∧
      sentCommands s1.log =
        [[0x21, 0x06, 0x01, 0x00], [0x21, 0x03, 0x05, 0x02, 0x00, 0x01, 0x80, 0x01]] := by
  obtain ⟨s1, h, hsent⟩ :=
    (toggle_prior_flag_noninterference sampleConstants scenarioA 5 disableTechBuffer []
      true false).2.2.2.2 0x00 0x0C 0x05 2 rfl rfl rfl rfl rfl rfl rfl
  exact ⟨s1, h, hsent⟩

end ObserveMode
